import Mathlib

/-!
Verification development for the chrono_manager repository.

The definitions below are a shallow embedding of the Python sources under
src/src: units_constants.py, configs.py, timeelement.py, utilityfuncs.py,
timepoint.py, timespan.py.  Python integers are modelled as Int, Python
floor division and modulo (for positive divisors) as Int.ediv / Int.emod,
Python exceptions as an explicit error type threaded through Except, and
Python lists as Lean lists.  Each definition carries a comment naming the
source function it embeds.
-/

/-- Time unit codes of the registry in units_constants.py. -/
inductive TUnit
  | YR | MH | DY | HR | ME | SD | WK | WY
deriving DecidableEq, Repr

instance : Inhabited TUnit := ⟨TUnit.YR⟩

/-- One (unit, value) pair: class TimeElement of timeelement.py. -/
structure TimeElement where
  element_unit : TUnit
  element_value : Int
deriving DecidableEq, Repr

instance : Inhabited TimeElement := ⟨⟨TUnit.YR, 2000⟩⟩

/-- Error values corresponding to the Python exceptions that the embedded
code can raise.  Distinct raise sites that matter to the claims get
distinct constructors. -/
inductive SpanReason
  | startNone
  | startEdgeEnd
  | scopeMismatch
  | notComparableWrapped
  | noSpan
  | startGreater
  | notComparableResult
  | noSpanExists
deriving DecidableEq, Repr

/-- Python exception model.  valueError / typeError / unboundLocalErr are
builtin Python exceptions; the tp… constructors are the TimePoint exception
classes from timepoint.py; occ… are TimePointOccurrenceError variants by
raise site; spanCreate is TimeSpanCreateArgumentError from timespan.py. -/
inductive Err
  | valueError (msg : String)
  | typeError (msg : String)
  | unboundLocalErr
  | tpCreation (msg : String)
  | tpArgumentMissing (units : List TUnit)
  | tpArgumentNoElements
  | tpArgumentUnmatched (chars : List Char)
  | tpNotComparable
  | tpNotSpan
  | occSequence
  | occInsufficient
  | occMalformed
  | spanCreate (r : SpanReason)
  | spanOccurrence
deriving DecidableEq, Repr

/-! ## Calendar arithmetic (CPython datetime internals)

configs.years_with_53_weeks and utilityfuncs.find_year_with_53_weeks call
date.isocalendar(); utilityfuncs also builds datetime values and compares
them.  The functions below embed the relevant CPython pure helpers:
_is_leap, _days_before_year, _days_before_month, _ymd2ord,
_isoweek1monday and the week component of date.isocalendar. -/

/-- calendar.isleap / datetime._is_leap.  On Int, % is Int.emod and / is
Int.ediv, which agree with Python % and // for positive divisors. -/
def pyIsLeap (y : Int) : Bool :=
  y % 4 == 0 && (y % 100 != 0 || y % 400 == 0)

/-- datetime._DAYS_IN_MONTH (non-leap February). -/
def daysInMonthTbl (m : Int) : Int :=
  if m = 1 then 31 else if m = 2 then 28 else if m = 3 then 31
  else if m = 4 then 30 else if m = 5 then 31 else if m = 6 then 30
  else if m = 7 then 31 else if m = 8 then 31 else if m = 9 then 30
  else if m = 10 then 31 else if m = 11 then 30 else 31

/-- datetime._DAYS_BEFORE_MONTH (non-leap year). -/
def daysBeforeMonthTbl (m : Int) : Int :=
  if m = 1 then 0 else if m = 2 then 31 else if m = 3 then 59
  else if m = 4 then 90 else if m = 5 then 120 else if m = 6 then 151
  else if m = 7 then 181 else if m = 8 then 212 else if m = 9 then 243
  else if m = 10 then 273 else if m = 11 then 304 else 334

/-- datetime._days_before_year. -/
def daysBeforeYear (y : Int) : Int :=
  (y - 1) * 365 + (y - 1) / 4 - (y - 1) / 100 + (y - 1) / 400

/-- datetime._ymd2ord: proleptic Gregorian ordinal of a date
(ordinal 1 is January 1 of year 1). -/
def ymd2ord (y m d : Int) : Int :=
  daysBeforeYear y + daysBeforeMonthTbl m
    + (if 2 < m ∧ pyIsLeap y = true then 1 else 0) + d

/-- Validity test performed by the datetime / date constructors
(MINYEAR = 1, MAXYEAR = 9999; day bounded by the month length). -/
def dateValid (y m d : Int) : Bool :=
  1 ≤ y && y ≤ 9999 && 1 ≤ m && m ≤ 12 && 1 ≤ d &&
    d ≤ daysInMonthTbl m + (if m == 2 && pyIsLeap y then 1 else 0)

/-- datetime._isoweek1monday: ordinal of the Monday that starts ISO week 1
of the given year. -/
def isoweek1monday (y : Int) : Int :=
  let firstday := ymd2ord y 1 1
  let firstweekday := (firstday + 6) % 7
  let week1monday := firstday - firstweekday
  if 3 < firstweekday then week1monday + 7 else week1monday

/-- Week component of date.isocalendar() in CPython. -/
def isocalWeek (y m d : Int) : Int :=
  let today := ymd2ord y m d
  let week := (today - isoweek1monday y) / 7
  if week < 0 then
    (today - isoweek1monday (y - 1)) / 7 + 1
  else if 52 ≤ week ∧ isoweek1monday (y + 1) ≤ today then
    1
  else
    week + 1

/-- Python range(a, b) as a list of Int. -/
def intRange (a b : Int) : List Int :=
  (List.range (b - a).toNat).map (fun (i : Nat) => a + (i : Int))

/-- configs.years_with_53_weeks (also duplicated in units_constants.py):
years y in [start_year, end_year] whose December 28 has ISO week 53.
The Python function returns a frozenset; the list here is in ascending
iteration order of the underlying range. -/
def years_with_53_weeks (start_year end_year : Int) : List Int :=
  (intRange start_year (end_year + 1)).filter
    (fun y => isocalWeek y 12 28 == 53)

/-- utilityfuncs.find_year_with_53_weeks: years y in [start_year, end_year]
whose December 31 has ISO week 53 (default bounds 1800 and 2100). -/
def find_year_with_53_weeks (start_year end_year : Int) : List Int :=
  (intRange start_year (end_year + 1)).filter
    (fun y => isocalWeek y 12 31 == 53)

/-- utilityfuncs.leap_years_between. -/
def leap_years_between (start_year end_year : Int) : List Int :=
  (intRange start_year (end_year + 1)).filter (fun y => pyIsLeap y)

/-- START_YEAR from units_constants.py. -/
def START_YEAR : Int := 1800

/-- END_YEAR from units_constants.py. -/
def END_YEAR : Int := 2199

/-- configs.YEARS_WITH_53_WEEKS = years_with_53_weeks(START_YEAR, END_YEAR). -/
def YEARS_WITH_53_WEEKS : List Int := years_with_53_weeks START_YEAR END_YEAR

/-! ## Unit registry and sequence resolver
Embeddings of units_constants.py tables and the pure functions of
utilityfuncs.py that TimePoint construction uses. -/

/-- Sequence names, the keys of units_sequence in units_constants.py. -/
inductive SeqName
  | gre | iso
deriving DecidableEq, Repr

/-- units_sequence["gre"]. -/
def greSeq : List TUnit := [TUnit.YR, TUnit.MH, TUnit.DY, TUnit.HR, TUnit.ME, TUnit.SD]

/-- units_sequence["iso"]. -/
def isoSeq : List TUnit := [TUnit.YR, TUnit.WK, TUnit.WY, TUnit.HR, TUnit.ME, TUnit.SD]

/-- Unit list of a sequence name. -/
def seqUnits : SeqName → List TUnit
  | SeqName.gre => greSeq
  | SeqName.iso => isoSeq

/-- Iteration order of the UNITS dict in units_constants.py
(Python dict insertion order), used by the tokenizer. -/
def unitsOrder : List TUnit :=
  [TUnit.SD, TUnit.ME, TUnit.HR, TUnit.WY, TUnit.WK, TUnit.DY, TUnit.MH, TUnit.YR]

/-- day_allow_vals maximum for a month number 1..12 (February is 29 in this
table, leap-independent). -/
def dayAllowMax (m : Int) : Int :=
  if m = 2 then 29 else daysInMonthTbl m

/-- TimeElement._validate_value: range units check min..max (with DY
special-cased to 1..31); list units (WY, MH) check membership in the
allowed-value dictionaries, whose value sets are 1..7 and 1..12. -/
def validate_value (u : TUnit) (v : Int) : Bool :=
  match u with
  | TUnit.SD => 0 ≤ v && v ≤ 59
  | TUnit.ME => 0 ≤ v && v ≤ 59
  | TUnit.HR => 0 ≤ v && v ≤ 23
  | TUnit.WY => 1 ≤ v && v ≤ 7
  | TUnit.WK => 1 ≤ v && v ≤ 53
  | TUnit.DY => 1 ≤ v && v ≤ 31
  | TUnit.MH => 1 ≤ v && v ≤ 12
  | TUnit.YR => 1800 ≤ v && v ≤ 2199

/-- over_join_units of a unit in the UNITS registry. -/
def over_join_units : TUnit → List TUnit
  | TUnit.SD => [TUnit.ME]
  | TUnit.ME => [TUnit.HR]
  | TUnit.HR => [TUnit.DY, TUnit.WY]
  | TUnit.WY => [TUnit.WK]
  | TUnit.WK => [TUnit.YR]
  | TUnit.DY => [TUnit.MH]
  | TUnit.MH => [TUnit.YR]
  | TUnit.YR => []

/-- under_join_units of a unit in the UNITS registry. -/
def under_join_units : TUnit → List TUnit
  | TUnit.SD => []
  | TUnit.ME => [TUnit.SD]
  | TUnit.HR => [TUnit.ME]
  | TUnit.WY => [TUnit.HR]
  | TUnit.WK => [TUnit.WY]
  | TUnit.DY => [TUnit.HR]
  | TUnit.MH => [TUnit.DY]
  | TUnit.YR => [TUnit.WK, TUnit.MH]

/-- TimeElement.get_max_value for unit DY with an integer month argument:
the source indexes the month-name list with month-1 and reads the
day_allow_vals maximum; called only with a validated month 1..12. -/
def get_max_value_DY (month : Int) : Int := dayAllowMax month

/-- TimeElement.unit_values_to_end_scope /
UNITS[unit]["values_to_end_scope"] from units_constants.py.  For DY with a
month: range(start_value, day_allow_vals[month]["max"]) — the source omits
the +1, so the month maximum itself is excluded; with month None it is
the one-element list [31]. -/
def unit_values_to_end_scope (u : TUnit) (start_value : Int) (month : Option Int) : List Int :=
  match u with
  | TUnit.SD => intRange start_value 60
  | TUnit.ME => intRange start_value 60
  | TUnit.HR => intRange start_value 24
  | TUnit.WY => intRange start_value 8
  | TUnit.WK => intRange start_value 54
  | TUnit.DY =>
      match month with
      | none => [31]
      | some m => intRange start_value (dayAllowMax m)
  | TUnit.MH => intRange start_value 13
  | TUnit.YR => intRange start_value (END_YEAR + 1)

/-- utilityfuncs.get_element_by_unit_from_elements. -/
def get_element_by_unit_from_elements (u : TUnit) (els : List TimeElement) :
    Option TimeElement :=
  els.find? (fun e => e.element_unit == u)

/-- utilityfuncs.get_value_by_unit_from_elements: returns the pair
(value, index), both None when the unit is absent. -/
def get_value_by_unit_from_elements (u : TUnit) (els : List TimeElement) :
    Option Int × Option Nat :=
  match els.findIdx? (fun e => e.element_unit == u) with
  | some i => ((els.get? i).map (·.element_value), some i)
  | none => (none, none)

/-- utilityfuncs.find_duplicate_units: unit codes already seen when
encountered again, in encounter order. -/
def find_duplicate_units (els : List TimeElement) : List TUnit :=
  (els.foldl
    (fun (p : List TUnit × List TUnit) e =>
      if e.element_unit ∈ p.1 then (p.1, p.2 ++ [e.element_unit])
      else (p.1 ++ [e.element_unit], p.2))
    ([], [])).2

/-- utilityfuncs.get_elements_sequence: the first sequence of
units_sequence whose unit tuple contains every element's unit ("gre" is
tried before "iso"); an empty element list trivially matches "gre". -/
def get_elements_sequence (els : List TimeElement) : Option (List TUnit) :=
  if els.all (fun e => e.element_unit ∈ greSeq) then some greSeq
  else if els.all (fun e => e.element_unit ∈ isoSeq) then some isoSeq
  else none

/-- utilityfuncs.what_is_sequence: like get_elements_sequence but returns
the sequence name and maps an empty list to None. -/
def what_is_sequence (els : List TimeElement) : Option SeqName :=
  if els.isEmpty then none
  else if els.all (fun e => e.element_unit ∈ greSeq) then some SeqName.gre
  else if els.all (fun e => e.element_unit ∈ isoSeq) then some SeqName.iso
  else none

/-- utilityfuncs.sort_elements_by_sequence.  Returns the pair of the
sorted element list and the missing-unit list.  The Python version sorts
stably by sequence index (equivalent, when every unit occurs in the
sequence, to concatenating the per-unit buckets in sequence order), then
walks the contiguous index range from the first to the last present unit;
positions whose unit is absent are recorded as missing (the Python list
holds the unit-name string at those positions; every caller either
rejects a non-empty missing list first or uses only the elements, so the
returned list here holds the found elements only). -/
def sort_elements_by_sequence (els : List TimeElement) :
    Option (List TimeElement) × List TUnit :=
  if els.isEmpty then (none, [])
  else
    match get_elements_sequence els with
    | none => (none, [])
    | some seq =>
        let sorted := seq.flatMap (fun u => els.filter (fun e => e.element_unit == u))
        match sorted.head?, sorted.getLast? with
        | some first, some lastEl =>
            let start_index := seq.findIdx (fun u => u == first.element_unit)
            let end_index := seq.findIdx (fun u => u == lastEl.element_unit)
            let expected := (seq.drop start_index).take (end_index + 1 - start_index)
            let final_elements := expected.filterMap
              (fun u => get_element_by_unit_from_elements u els)
            let missing_units := expected.filter
              (fun u => (get_element_by_unit_from_elements u els).isNone)
            (some final_elements, missing_units)
        | _, _ => (none, [])

/-- utilityfuncs.check_possibility_weekday_week.  For week 53 the source
calls find_year_with_53_weeks(weekday), i.e. the weekday value is passed
as the start_year of the scan (end_year keeps its default 2100); with a
None weekday Python's range() raises TypeError. -/
def check_possibility_weekday_week (weekday : Option Int) (week : Int) :
    Except Err (Bool × Option (List Int)) :=
  if week ≠ 53 then Except.ok (true, none)
  else
    match weekday with
    | none => Except.error (Err.typeError "range() argument must be int, not NoneType")
    | some w =>
        let possible_years := find_year_with_53_weeks w 2100
        Except.ok (!possible_years.isEmpty, some possible_years)

/-- utilityfuncs.check_elements_validity.  In the Gregorian branch the
day-exceeds-month-maximum arm constructs a ValueError without raising it
(the source lacks the raise keyword), so only the non-leap February 29
check can fail; in the ISO branch week 53 is checked against the 53-week
years. -/
def check_elements_validity (els : List TimeElement) : Except Err Bool :=
  let year := (get_value_by_unit_from_elements TUnit.YR els).1
  let month := (get_value_by_unit_from_elements TUnit.MH els).1
  let day := (get_value_by_unit_from_elements TUnit.DY els).1
  let week := (get_value_by_unit_from_elements TUnit.WK els).1
  let weekday := (get_value_by_unit_from_elements TUnit.WY els).1
  match what_is_sequence els with
  | some SeqName.gre =>
      match day, month with
      | some d, some m =>
          if d > get_max_value_DY m then
            Except.ok true
          else
            match year with
            | some yv =>
                if ¬ pyIsLeap yv ∧ m = 2 ∧ d > 28 then
                  Except.error (Err.valueError
                    "check_elements_validity: day not valid for month in non leap year")
                else Except.ok true
            | none => Except.ok true
      | _, _ => Except.ok true
  | some SeqName.iso =>
      if week == some 53 then do
        let pr ← check_possibility_weekday_week weekday 53
        if !pr.1 then
          Except.error (Err.valueError
            "check_elements_validity: weekday in week is not valid")
        else
          match year, pr.2 with
          | some yv, some pys =>
              if yv ∉ pys then
                Except.error (Err.valueError
                  "check_elements_validity: the year does not have 53 weeks")
              else Except.ok true
          | _, _ => Except.ok true
      else Except.ok true
  | none =>
      Except.error (Err.valueError
        "check_elements_validity: the elements are not in a valid sequence")

/-- Wrapper used by several utility functions: except ValueError as e:
raise ValueError(f"func: e") — a ValueError is re-raised with a prefixed
message, any other exception type propagates unchanged. -/
def wrapValueError (fn : String) : Err → Err
  | Err.valueError m => Err.valueError (fn ++ ":" ++ m)
  | e => e

/-- utilityfuncs.is_ordered_elements: valid sequence, no duplicate units,
no missing units, element validity, and the input already in sorted
order. -/
def is_ordered_elements (els : List TimeElement) : Except Err Bool :=
  if (get_elements_sequence els).isNone then
    Except.error (Err.valueError "is_ordered_elements: elements must be in a valid sequence")
  else if !(find_duplicate_units els).isEmpty then
    Except.error (Err.valueError "is_ordered_elements: elements must not have duplicate units")
  else
    let sm := sort_elements_by_sequence els
    if !sm.2.isEmpty then
      Except.error (Err.valueError "is_ordered_elements: elements have missing units")
    else
      match check_elements_validity els with
      | Except.error e => Except.error (wrapValueError "is_ordered_elements" e)
      | Except.ok _ =>
          if sm.1 ≠ some els then
            Except.error (Err.valueError "is_ordered_elements: elements must be sorted by sequence")
          else Except.ok true

/-- utilityfuncs.is_elements_leap.  When month and day are both present
the source first probes datetime(year or 2000, month, day) and returns
False on an invalid date; then a present year decides by calendar.isleap,
and the year-free February 29 pattern is treated as leap. -/
def is_elements_leap (els : List TimeElement) : Bool :=
  let year := (get_value_by_unit_from_elements TUnit.YR els).1
  let month := (get_value_by_unit_from_elements TUnit.MH els).1
  let day := (get_value_by_unit_from_elements TUnit.DY els).1
  let probeBad :=
    match month, day with
    | some m, some d => !dateValid (year.getD 2000) m d
    | _, _ => false
  if probeBad then false
  else
    match year with
    | some yv => pyIsLeap yv
    | none => month == some 2 && day == some 29

/-- utilityfuncs.find_scope_in_ordered_elements, split into the
computational part; the wrapping is_ordered_elements check is performed
by the Except version below. -/
def scopeOfSorted (els : List TimeElement) : Option TUnit :=
  match get_elements_sequence els, els with
  | some seq, first :: _ =>
      let index := seq.findIdx (fun u => u == first.element_unit)
      if index = 0 then none else seq.get? (index - 1)
  | _, _ => none

/-- utilityfuncs.find_scope_in_ordered_elements. -/
def find_scope_in_ordered_elements (els : List TimeElement) :
    Except Err (Option TUnit) :=
  match is_ordered_elements els with
  | Except.error e => Except.error (wrapValueError "find_scope_in_ordered_elements" e)
  | Except.ok _ => Except.ok (scopeOfSorted els)

/-- utilityfuncs.find_ordered_elements_over_under_units: units of the
sequence strictly before the first present unit ("O") and strictly after
the last present unit ("U"). -/
def find_ordered_elements_over_under_units (els : List TimeElement) :
    Except Err (List TUnit × List TUnit) :=
  match is_ordered_elements els with
  | Except.error e =>
      Except.error (wrapValueError "find_ordered_elements_over_under_units" e)
  | Except.ok _ =>
      match get_elements_sequence els, els with
      | some seq, first :: rest =>
          let lastEl := (first :: rest).getLast (by simp)
          let sIdx := seq.findIdx (fun u => u == first.element_unit)
          let eIdx := seq.findIdx (fun u => u == lastEl.element_unit)
          Except.ok (seq.take sIdx, seq.drop (eIdx + 1))
      | _, _ => Except.ok ([], [])

/-! ## TimePoint (timepoint.py) -/

/-- configs.PointType. -/
inductive PointType
  | START | END
deriving DecidableEq, Repr

/-- Immutable value of a constructed TimePoint: the sorted element list
plus the derived metadata computed once in _initialize_time_point. -/
structure TimePoint where
  time_elements : List TimeElement
  is_iso : Bool
  is_leap : Bool
  scope : Option TUnit
  over_units : List TUnit
  under_units : List TUnit
  point_type : PointType := PointType.START
deriving DecidableEq, Repr

instance : Inhabited TimePoint :=
  ⟨{ time_elements := [⟨TUnit.YR, 2000⟩], is_iso := false, is_leap := true,
     scope := none, over_units := [], under_units := [TUnit.MH, TUnit.DY, TUnit.HR, TUnit.ME, TUnit.SD] }⟩

/-- TimePoint.units. -/
def TimePoint.units (p : TimePoint) : List TUnit :=
  p.time_elements.map (·.element_unit)

/-- TimePoint.values. -/
def TimePoint.values (p : TimePoint) : List Int :=
  p.time_elements.map (·.element_value)

/-- TimePoint.week. -/
def TimePoint.week (p : TimePoint) : Option Int :=
  (get_value_by_unit_from_elements TUnit.WK p.time_elements).1

/-- TimePoint.sequence_name (what_is_sequence on the stored elements). -/
def TimePoint.sequence_name (p : TimePoint) : Option SeqName :=
  what_is_sequence p.time_elements

/-- TimePoint.available_years: the fixed 53-week-year set for an ISO
week-53 point, the leap years of the supported range for a leap-sensitive
point, None otherwise. -/
def TimePoint.available_years (p : TimePoint) : Option (List Int) :=
  if p.is_iso && p.week == some 53 then some YEARS_WITH_53_WEEKS
  else if p.is_leap then some (leap_years_between START_YEAR END_YEAR)
  else none

/-- TimePoint.__init__ from an element list (the string form is
timepoint_from_string below): sort_elements_by_sequence, reject missing
units and empty results, then _initialize_time_point, which validates via
is_ordered_elements (wrapping ValueError into TimePointCreationError) and
computes the derived fields. -/
def mkTimePoint (telements : List TimeElement) : Except Err TimePoint :=
  let sm := sort_elements_by_sequence telements
  if !sm.2.isEmpty then Except.error (Err.tpArgumentMissing sm.2)
  else
    match sm.1 with
    | none => Except.error Err.tpArgumentNoElements
    | some [] => Except.error Err.tpArgumentNoElements
    | some (first :: rest) =>
        let sorted := first :: rest
        match is_ordered_elements sorted with
        | Except.error (Err.valueError m) =>
            Except.error (Err.tpCreation ("Error in creating TimePoint instance: " ++ m))
        | Except.error e => Except.error e
        | Except.ok _ => do
            let ou ← find_ordered_elements_over_under_units sorted
            Except.ok
              { time_elements := sorted
                is_iso := what_is_sequence sorted == some SeqName.iso
                is_leap := is_elements_leap sorted
                scope := scopeOfSorted sorted
                over_units := ou.1
                under_units := ou.2
                point_type := PointType.START }

/-- Values "O"/int/"U" of utilityfuncs.complete_ordered_elements. -/
inductive OUVal
  | O | U | v (n : Int)
deriving DecidableEq, Repr

/-- utilityfuncs.complete_ordered_elements. -/
def complete_ordered_elements (els : List TimeElement) : Except Err (List OUVal) :=
  match is_ordered_elements els with
  | Except.error e => Except.error (wrapValueError "complete_ordered_elements" e)
  | Except.ok _ => do
      let ou ← find_ordered_elements_over_under_units els
      match get_elements_sequence els with
      | none => Except.ok []
      | some seq =>
          Except.ok (seq.filterMap (fun u =>
            if u ∈ ou.1 then some OUVal.O
            else match get_element_by_unit_from_elements u els with
            | some e => some (OUVal.v e.element_value)
            | none => if u ∈ ou.2 then some OUVal.U else none))

/-- utilityfuncs._set_complete_elements_values: placeholders take the
default value at the same position. -/
def set_complete_elements_values (complete : List OUVal) (defaults : List Int) :
    Except Err (List Int) :=
  if defaults.length ≠ 6 then
    Except.error (Err.valueError
      "_set_complete_elements_values: default_unit_values must contain exactly 6 integer values")
  else
    Except.ok ((complete.zip defaults).map (fun p =>
      match p.1 with
      | OUVal.v n => n
      | _ => p.2))

/-- utilityfuncs.add_element_to_ordered_elements. -/
def add_element_to_ordered_elements (element_added : TimeElement)
    (els : List TimeElement) : Except Err (List TimeElement) :=
  match els with
  | [] => Except.ok [element_added]
  | first :: rest =>
      match is_ordered_elements (first :: rest) with
      | Except.error e =>
          Except.error (wrapValueError "add_element_to_ordered_elements:argument elements" e)
      | Except.ok _ =>
          if element_added.element_unit ∈ (first :: rest).map (·.element_unit) then
            Except.error (Err.valueError
              "add_element_to_ordered_elements: the element unit is already in the list")
          else
            let lastEl := (first :: rest).getLast (by simp)
            if element_added.element_unit ∈ over_join_units first.element_unit then
              let result := element_added :: first :: rest
              match is_ordered_elements result with
              | Except.error e =>
                  Except.error (wrapValueError "add_element_to_ordered_elements:result elements" e)
              | Except.ok _ => Except.ok result
            else if element_added.element_unit ∈ under_join_units lastEl.element_unit then
              let result := (first :: rest) ++ [element_added]
              match is_ordered_elements result with
              | Except.error e =>
                  Except.error (wrapValueError "add_element_to_ordered_elements:result elements" e)
              | Except.ok _ => Except.ok result
            else
              Except.error (Err.valueError
                "add_element_to_ordered_elements: the element unit is not above or below unit of the existing elements")

/-- utilityfuncs.units_vlaues_to_ordered_elements: eight optional unit
values in the parameter order (year, month, day, hour, minute, second,
weekday, week); each present value is turned into a TimeElement (whose
constructor validates the value and raises ValueError otherwise), the
list is sorted by sequence, and is_ordered_elements is checked on the
unsorted temporary list. -/
def units_vlaues_to_ordered_elements (year month day hour minute second weekday week : Option Int) :
    Except Err (List TimeElement) := do
  let args : List (TUnit × Option Int) :=
    [(TUnit.YR, year), (TUnit.MH, month), (TUnit.DY, day), (TUnit.HR, hour),
     (TUnit.ME, minute), (TUnit.SD, second), (TUnit.WY, weekday), (TUnit.WK, week)]
  let temp_elements ← args.foldlM
    (fun (acc : List TimeElement) uv =>
      match uv.2 with
      | none => Except.ok acc
      | some n =>
          if validate_value uv.1 n then Except.ok (acc ++ [⟨uv.1, n⟩])
          else Except.error (Err.valueError "TimeElement.__init__: error validating value"))
    []
  let sm := sort_elements_by_sequence temp_elements
  match sm.1 with
  | none => Except.ok []
  | some [] => Except.ok []
  | some (f :: r) =>
      match is_ordered_elements temp_elements with
      | Except.error e =>
          Except.error (wrapValueError "units_vlaues_to_ordered_elements:result elements" e)
      | Except.ok _ => Except.ok (f :: r)

/-- A Python call argument as passed to units_vlaues_to_ordered_elements
by the TimePoint filling code: an int, a bool (which Python treats as an
int with value 0 or 1), or None. -/
inductive PyArg
  | intArg (n : Int) | boolArg (b : Bool) | noneArg
deriving DecidableEq, Repr

/-- Coercion a positional argument undergoes inside the callee. -/
def pyArgToOpt : PyArg → Option Int
  | PyArg.intArg n => some n
  | PyArg.boolArg b => some (if b then 1 else 0)
  | PyArg.noneArg => none

/-- Calling convention for units_vlaues_to_ordered_elements: it declares
exactly eight positional parameters with no defaults, so a call with any
other number of positional arguments raises TypeError before the body
runs. -/
def call_units_vlaues_to_ordered_elements (args : List PyArg) :
    Except Err (List TimeElement) :=
  match args with
  | [a1, a2, a3, a4, a5, a6, a7, a8] =>
      units_vlaues_to_ordered_elements (pyArgToOpt a1) (pyArgToOpt a2) (pyArgToOpt a3)
        (pyArgToOpt a4) (pyArgToOpt a5) (pyArgToOpt a6) (pyArgToOpt a7) (pyArgToOpt a8)
  | _ =>
      Except.error (Err.typeError
        "units_vlaues_to_ordered_elements() missing 1 required positional argument: week")

/-- Entries of TimePoint.start_filled / end_filled: unit-name strings for
the over units followed by the elements' integer values and the integer
padding. -/
inductive FillVal
  | unitName (u : TUnit) | v (n : Int)
deriving DecidableEq, Repr

/-- start_array of TimePoint.start_filled. -/
def startArray : List Int := [1, 1, 1, 0, 0, 0]

/-- end_array of TimePoint.end_filled. -/
def endArray : List Int := [1, 12, 1, 23, 59, 59]

/-- TimePoint.start_filled. -/
def TimePoint.start_filled (p : TimePoint) : List FillVal :=
  let filled := p.over_units.map FillVal.unitName
    ++ p.time_elements.map (fun e => FillVal.v e.element_value)
  filled ++ (startArray.drop filled.length).map FillVal.v

/-- TimePoint.end_filled. -/
def TimePoint.end_filled (p : TimePoint) : List FillVal :=
  let filled := p.over_units.map FillVal.unitName
    ++ p.time_elements.map (fun e => FillVal.v e.element_value)
  filled ++ (endArray.drop filled.length).map FillVal.v

/-- TimePoint.filled_on_type. -/
def TimePoint.filled_on_type (p : TimePoint) : List FillVal :=
  if p.point_type == PointType.START then p.start_filled else p.end_filled

/-- The argument list the filling code builds: the filled values with
strings replaced by None, then is_iso appended. -/
def fillArgs (vals : List FillVal) (iso : Bool) : List PyArg :=
  vals.map (fun v =>
    match v with
    | FillVal.v n => PyArg.intArg n
    | FillVal.unitName _ => PyArg.noneArg) ++ [PyArg.boolArg iso]

/-- TimePoint.filled_timepoint_on_type: builds the value list from
filled_on_type, appends is_iso, and calls
units_vlaues_to_ordered_elements with that argument list (seven
positional arguments), then constructs a TimePoint from the result. -/
def filled_timepoint_on_type (p : TimePoint) : Except Err TimePoint := do
  let time_elms ← call_units_vlaues_to_ordered_elements (fillArgs p.filled_on_type p.is_iso)
  mkTimePoint time_elms

/-- TimePoint.start_point: like filled_timepoint_on_type but always from
start_filled. -/
def TimePoint.start_point (p : TimePoint) : Except Err TimePoint := do
  let time_elms ← call_units_vlaues_to_ordered_elements (fillArgs p.start_filled p.is_iso)
  mkTimePoint time_elms

/-- TimePoint.end_point: like filled_timepoint_on_type but always from
end_filled. -/
def TimePoint.end_point (p : TimePoint) : Except Err TimePoint := do
  let time_elms ← call_units_vlaues_to_ordered_elements (fillArgs p.end_filled p.is_iso)
  mkTimePoint time_elms

/-! ## Comparator (utilityfuncs.py lines 739..1345, timepoint.py compare_points)

are_ordered_elements_comparable computes
elements1_sequence.index(elements1[-1]) where elements1_sequence is a
tuple of unit-name strings and elements1[-1] is a TimeElement object;
Python rich comparison between a str and a TimeElement returns
NotImplemented on both sides and is therefore False, so tuple.index
raises ValueError unconditionally.  Everything after that check in
compare_two_ordered_comparable_elements is consequently dead code; it is
embedded below nonetheless. -/

/-- Python equality between a unit-name string of a sequence tuple and a
TimeElement object (NotImplemented on both sides, hence False). -/
def strEqTimeElement (_u : TUnit) (_x : TimeElement) : Bool := false

/-- tuple.index as called in are_ordered_elements_comparable: scans with
Python equality and raises ValueError when nothing matches. -/
def pyTupleIndex (seq : List TUnit) (x : TimeElement) : Except Err Nat :=
  match seq.findIdx? (fun u => strEqTimeElement u x) with
  | some i => Except.ok i
  | none => Except.error (Err.valueError "tuple.index(x): x not in tuple")

/-- utilityfuncs.are_ordered_elements_comparable. -/
def are_ordered_elements_comparable (e1 e2 : List TimeElement) : Except Err Bool := do
  let _ ← (match is_ordered_elements e1 with
    | Except.error err =>
        Except.error (wrapValueError "are_ordered_elements_comparable:arguments elements1 and elements2" err)
    | Except.ok b => Except.ok b)
  let _ ← (match is_ordered_elements e2 with
    | Except.error err =>
        Except.error (wrapValueError "are_ordered_elements_comparable:arguments elements1 and elements2" err)
    | Except.ok b => Except.ok b)
  match get_elements_sequence e1, get_elements_sequence e2, e1.getLast?, e2.getLast? with
  | some s1, some s2, some l1, some l2 => do
      let i1 ← pyTupleIndex s1 l1
      let i2 ← pyTupleIndex s2 l2
      let sc1 ← find_scope_in_ordered_elements e1
      let sc2 ← find_scope_in_ordered_elements e2
      Except.ok (sc1 == sc2 && i1 == i2)
  | _, _, _, _ => Except.error (Err.valueError "assert: sequence not None")

/-- Year component of CPython datetime._ord2ymd. -/
def ordToYear (ordn : Int) : Int :=
  let n := ordn - 1
  let n400 := n / 146097
  let r400 := n % 146097
  let n100 := r400 / 36524
  let r100 := r400 % 36524
  let n4 := r100 / 1461
  let r4 := r100 % 1461
  let n1 := r4 / 365
  let year := n400 * 400 + 1 + n100 * 100 + n4 * 4 + n1
  if n1 = 4 ∨ n100 = 4 then year - 1 else year

/-- date.isoweekday on an ordinal (ordinal 1, 0001-01-01, is a Monday). -/
def pyIsoWeekday (ordn : Int) : Int := (ordn - 1) % 7 + 1

/-- utilityfuncs.iso_to_gregorian, with a datetime modelled by its total
seconds (ordinal * 86400 + time of day).  datetime(year, 1, 4) raises
ValueError for a year outside 1..9999; the timedelta overflow possible
only at year 9999 is not modelled (every caller stays within
1800..2199). -/
def iso_to_gregorian (year week weekday hour minute second : Int) :
    Except Err (Option Int) :=
  if week < 1 ∨ week > 53 then Except.ok none
  else if weekday < 1 ∨ weekday > 7 then Except.ok none
  else if hour < 0 ∨ hour > 23 then Except.ok none
  else if minute < 0 ∨ minute > 59 then Except.ok none
  else if second < 0 ∨ second > 59 then Except.ok none
  else if ¬ (1 ≤ year ∧ year ≤ 9999) then
    Except.error (Err.valueError "datetime: year is out of range")
  else
    let first_day := ymd2ord year 1 4
    let start_of_year := first_day - (pyIsoWeekday first_day - 1)
    let target := start_of_year + 7 * (week - 1) + (weekday - 1)
    if week = 53 ∧ ordToYear target ≠ year then Except.ok none
    else Except.ok (some (target * 86400 + hour * 3600 + minute * 60 + second))

/-- One side of utilityfuncs.compare_two_datetimes_ints: an ISO side goes
through iso_to_gregorian, a Gregorian side through the datetime
constructor (ValueError on an invalid date or time). -/
def dtOfInts (ints : List Int) (iso : Bool) : Except Err (Option Int) :=
  match ints with
  | y :: mo :: d :: h :: mi :: s :: _ =>
      if iso then iso_to_gregorian y mo d h mi s
      else
        if dateValid y mo d && (0 ≤ h && h ≤ 23) && (0 ≤ mi && mi ≤ 59)
            && (0 ≤ s && s ≤ 59) then
          Except.ok (some (ymd2ord y mo d * 86400 + h * 3600 + mi * 60 + s))
        else Except.error (Err.valueError "datetime: invalid arguments")
  | _ => Except.ok none

/-- utilityfuncs.compare_two_datetimes_ints. -/
def compare_two_datetimes_ints (ints1 : List Int) (is_iso1 : Bool)
    (ints2 : List Int) (is_iso2 : Bool) : Except Err Int :=
  if ints1.length < 6 ∨ ints2.length < 6 then Except.ok (-2)
  else do
    let dt1 ← dtOfInts ints1 is_iso1
    let dt2 ← dtOfInts ints2 is_iso2
    match dt1, dt2 with
    | some a, some b =>
        Except.ok (if a > b then 1 else if a < b then -1 else 0)
    | _, _ => Except.ok (-2)

/-- Python equality of the tuple returned by
get_value_by_unit_from_elements against the int 53: always False. -/
def pyTupleEqInt (_t : Option Int × Option Nat) (_n : Int) : Bool := false

/-- utilityfuncs.days_to_year_start_iso as called from
compare_two_ordered_comparable_elements: the week and weekday arguments
are the (value, index) tuples, so the strptime format "%G %V %u" never
matches and ValueError is raised. -/
def days_to_year_start_iso_dyn (_iso_year : Int)
    (_iso_week _iso_weekday : Option Int × Option Nat) : Except Err Int :=
  Except.error (Err.valueError "strptime: time data does not match format")

/-- utilityfuncs.days_to_year_start_gregorian with the dynamically typed
month and day the caller passes (entries of a complete_ordered_elements
list); a string month makes the datetime constructor raise TypeError. -/
def days_to_year_start_gregorian_dyn (year : Int) (month day : OUVal) :
    Except Err Int :=
  match month with
  | OUVal.v m =>
      let d := match day with | OUVal.v dv => dv | _ => 1
      if dateValid year m d then Except.ok (ymd2ord year m d - ymd2ord year 1 1)
      else Except.error (Err.valueError "datetime: invalid arguments")
  | _ => Except.error (Err.typeError "datetime: an integer is required")

/-- utilityfuncs.is_iso_greg_compare_consistent as called from the
comparator (tuple-typed week and weekday). -/
def is_iso_greg_compare_consistent_dyn (treshold iso_year : Int)
    (iso_week iso_weekday : Option Int × Option Nat) (year : Int)
    (month day : OUVal) : Except Err Bool := do
  let iso_days ← days_to_year_start_iso_dyn iso_year iso_week iso_weekday
  let gregorian_days ← days_to_year_start_gregorian_dyn year month day
  Except.ok (decide (treshold < (iso_days - gregorian_days).natAbs))

/-- constants.CompareSequnce. -/
inductive CompareSequnce
  | GRE | ISO | ISO_GRE
deriving DecidableEq, Repr

/-- Result of the comparator: a plain int or the per-year dictionary with
the greater / less / equal year buckets. -/
inductive CompResult
  | intr (n : Int)
  | years (greater less equal : List Int)
deriving DecidableEq, Repr

/-- Reading a Python local that may not have been assigned: None here
means the assignment never ran, so the read raises UnboundLocalError. -/
def readLocal (x : Option (List Int)) : Except Err (List Int) :=
  match x with
  | some v => Except.ok v
  | none => Except.error Err.unboundLocalErr

/-- Lexicographic value comparison of the final else branch of
compare_two_ordered_comparable_elements (zip over the element pairs,
falling through to return 0). -/
def zipCompareElements (e1 e2 : List TimeElement) : CompResult :=
  match (e1.zip e2).find? (fun p => p.1.element_value ≠ p.2.element_value) with
  | some p =>
      if p.1.element_value > p.2.element_value then CompResult.intr 1
      else CompResult.intr (-1)
  | none => CompResult.intr 0

/-- utilityfuncs.compare_two_ordered_comparable_elements.  The entry
check wraps both the failure of are_ordered_elements_comparable and a
False answer into a ValueError; because that check itself always raises
(see pyTupleIndex above), everything below the first bind is dead code,
embedded faithfully: the inverted is_iso flags, the never-assigned
iso_available_years local, the set_years overwrite from temp_years, and
the three scope branches. -/
def compare_two_ordered_comparable_elements (e1 e2 : List TimeElement)
    (leap_year : Bool := false) : Except Err CompResult := do
  let comparable ← (match are_ordered_elements_comparable e1 e2 with
    | Except.error err =>
        Except.error (wrapValueError
          "compare_two_ordered_comparable_elements:arguments elements1 and elements2" err)
    | Except.ok b => Except.ok b)
  if !comparable then
    Except.error (Err.valueError
      "compare_two_ordered_comparable_elements:arguments elements1 and elements2:elements1 and elements2 must be ordered and matchable")
  else do
    let is_leap_element1 := is_elements_leap e1 || leap_year
    let is_leap_element2 := is_elements_leap e2 || leap_year
    let compare_in_leap := is_leap_element1 || is_leap_element2 || leap_year
    let is_iso_elements1 := if what_is_sequence e1 == some SeqName.iso then false else true
    let is_iso_elements2 := if what_is_sequence e2 == some SeqName.iso then false else true
    let compare_type : CompareSequnce :=
      if xor is_iso_elements1 is_iso_elements2 then CompareSequnce.ISO_GRE
      else if is_iso_elements1 && is_iso_elements2 then CompareSequnce.ISO
      else CompareSequnce.GRE
    let complete_elements1 ← complete_ordered_elements e1
    let complete_elements2 ← complete_ordered_elements e2
    let wk_value1 := get_value_by_unit_from_elements TUnit.WK e1
    let wk_value2 := get_value_by_unit_from_elements TUnit.WK e2
    let wy_value1 := get_value_by_unit_from_elements TUnit.WY e1
    let wy_value2 := get_value_by_unit_from_elements TUnit.WY e2
    let iso_available_years : Option (List Int) :=
      if pyTupleEqInt wk_value2 53 || pyTupleEqInt wk_value2 53 then
        some YEARS_WITH_53_WEEKS
      else none
    let temp_years ← (match compare_type with
      | CompareSequnce.GRE => Except.ok ([] : List Int)
      | CompareSequnce.ISO => do
          let ys ← readLocal iso_available_years
          let _ := if !ys.isEmpty then ys else [2023]
          Except.ok ([] : List Int)
      | CompareSequnce.ISO_GRE =>
          if is_iso_elements1 && !is_iso_elements2 then do
            let cons ← is_iso_greg_compare_consistent_dyn 3 2023 wk_value1 wy_value1 2023
              ((complete_elements2.get? 1).getD OUVal.O) ((complete_elements2.get? 2).getD OUVal.O)
            if cons then do
              let ys ← readLocal iso_available_years
              let _ := if !ys.isEmpty then ys else [2023]
              Except.ok ([] : List Int)
            else do
              let ys ← readLocal iso_available_years
              Except.ok (if !ys.isEmpty then ys else intRange START_YEAR (END_YEAR + 1))
          else if !is_iso_elements1 && is_iso_elements2 then do
            let cons ← is_iso_greg_compare_consistent_dyn 3 2023 wk_value2 wy_value2 2023
              ((complete_elements1.get? 1).getD OUVal.O) ((complete_elements1.get? 2).getD OUVal.O)
            if cons then Except.ok ([] : List Int)
            else do
              let ys ← readLocal iso_available_years
              let _ := if !ys.isEmpty then ys else intRange START_YEAR (END_YEAR + 1)
              Except.ok ([] : List Int)
          else Except.ok ([] : List Int))
    let set_years := temp_years.filter (fun y =>
      xor (pyIsLeap y && compare_in_leap) (!pyIsLeap y && !compare_in_leap))
    let scope ← find_scope_in_ordered_elements e1
    match scope with
    | none => do
        let s1 ← set_complete_elements_values complete_elements1 [1, 1, 1, 0, 0, 0]
        let s2 ← set_complete_elements_values complete_elements2 [1, 1, 1, 0, 0, 0]
        let r ← compare_two_datetimes_ints s1 is_iso_elements1 s2 is_iso_elements2
        Except.ok (CompResult.intr r)
    | some TUnit.YR =>
        if set_years.length = 1 then do
          let y0 := set_years.headD 0
          let s1 ← set_complete_elements_values complete_elements1 [y0, 1, 1, 0, 0, 0]
          let s2 ← set_complete_elements_values complete_elements2 [y0, 1, 1, 0, 0, 0]
          let r ← compare_two_datetimes_ints s1 is_iso_elements1 s2 is_iso_elements2
          Except.ok (CompResult.intr r)
        else do
          let buckets ← set_years.foldlM
            (fun (acc : List Int × List Int × List Int) year => do
              let s1 ← set_complete_elements_values complete_elements1 [year, 1, 1, 0, 0, 0]
              let s2 ← set_complete_elements_values complete_elements2 [year, 1, 1, 0, 0, 0]
              let r ← compare_two_datetimes_ints s1 is_iso_elements1 s2 is_iso_elements2
              Except.ok (if r = 1 then (acc.1 ++ [year], acc.2.1, acc.2.2)
                else if r = -1 then (acc.1, acc.2.1 ++ [year], acc.2.2)
                else (acc.1, acc.2.1, acc.2.2 ++ [year])))
            ([], [], [])
          Except.ok (CompResult.years buckets.1 buckets.2.1 buckets.2.2)
    | some _ => Except.ok (zipCompareElements e1 e2)

/-- TimePoint.compare_points: scope mismatch raises
TimePointNotComparableError, a ValueError from the comparator is caught
and re-raised as TimePointNotComparableError, other exception types
propagate. -/
def compare_points (point1 point2 : TimePoint) : Except Err CompResult :=
  if point1.scope ≠ point2.scope then Except.error Err.tpNotComparable
  else
    match compare_two_ordered_comparable_elements point1.time_elements point2.time_elements false with
    | Except.error (Err.valueError _) => Except.error Err.tpNotComparable
    | Except.error e => Except.error e
    | Except.ok r => Except.ok r

/-! ## is_between_points (timepoint.py lines 256..359) -/

/-- Result of TimePoint.is_between_points: an indicator int or a
per-year dictionary (year, indicator). -/
inductive BetweenResult
  | intr (n : Int)
  | perYear (entries : List (Int × Int))
deriving DecidableEq, Repr

/-- Python equality of a comparator result against an int (a dict
result never equals an int). -/
def compResultEqInt (c : CompResult) (n : Int) : Bool :=
  match c with
  | CompResult.intr m => m == n
  | CompResult.years _ _ _ => false

/-- The indicator variable of is_between_points: assigned by three
consecutive non-exclusive if statements, so the last satisfied condition
wins and none satisfied leaves the local unassigned (None here). -/
def betweenIndicator (comp_with_start comp_with_end : CompResult) : Option Int :=
  let i0 : Option Int :=
    if compResultEqInt comp_with_start 1 && compResultEqInt comp_with_end 1 then some 0
    else none
  let i1 := if compResultEqInt comp_with_start (-1) then some (-1) else i0
  if compResultEqInt comp_with_end (-1) then some 1 else i1

/-- TimePoint.is_between_points.  After the scope check the three points
are completed through filled_timepoint_on_type; the comparator calls are
wrapped so that a ValueError becomes TimePointNotComparableError, while
other exception types propagate; reading the indicator when no condition
assigned it raises UnboundLocalError. -/
def is_between_points (point pstart pend : TimePoint) : Except Err BetweenResult := do
  if pstart.scope ≠ pend.scope then Except.error Err.tpNotComparable
  else do
    let start_points ← filled_timepoint_on_type pstart
    let end_points ← filled_timepoint_on_type pend
    let point_points ← filled_timepoint_on_type point
    let comp_result ← (match compare_two_ordered_comparable_elements
        end_points.time_elements start_points.time_elements false with
      | Except.error (Err.valueError _) => Except.error Err.tpNotComparable
      | Except.error e => Except.error e
      | Except.ok r => Except.ok r)
    match comp_result with
    | CompResult.intr c =>
        if c = 0 then Except.error Err.tpNotSpan
        else if c = 1 then do
          let cws ← (match compare_two_ordered_comparable_elements
              point_points.time_elements start_points.time_elements false with
            | Except.error (Err.valueError _) => Except.error Err.tpNotComparable
            | Except.error e => Except.error e
            | Except.ok r => Except.ok r)
          let cwe ← (match compare_two_ordered_comparable_elements
              end_points.time_elements point_points.time_elements false with
            | Except.error (Err.valueError _) => Except.error Err.tpNotComparable
            | Except.error e => Except.error e
            | Except.ok r => Except.ok r)
          match betweenIndicator cws cwe with
          | some n => Except.ok (BetweenResult.intr n)
          | none => Except.error Err.unboundLocalErr
        else if c = -1 then Except.ok (BetweenResult.intr 1)
        else Except.error Err.tpNotComparable
    | CompResult.years greater _ _ => do
        let entries ← greater.foldlM
          (fun (acc : List (Int × Int)) year => do
            let start_elems ← add_element_to_ordered_elements ⟨TUnit.YR, year⟩
              start_points.time_elements
            let end_elems ← add_element_to_ordered_elements ⟨TUnit.YR, year⟩
              end_points.time_elements
            let point_elems ← add_element_to_ordered_elements ⟨TUnit.YR, year⟩
              point_points.time_elements
            let cws ← (match compare_two_ordered_comparable_elements point_elems start_elems false with
              | Except.error (Err.valueError _) => Except.error Err.tpNotComparable
              | Except.error e => Except.error e
              | Except.ok r => Except.ok r)
            let cwe ← (match compare_two_ordered_comparable_elements end_elems point_elems false with
              | Except.error (Err.valueError _) => Except.error Err.tpNotComparable
              | Except.error e => Except.error e
              | Except.ok r => Except.ok r)
            match betweenIndicator cws cwe with
            | some n => Except.ok (acc ++ [(year, n)])
            | none => Except.ok acc)
          []
        Except.ok (BetweenResult.perYear entries)

/-! ## Occurrence generator (timepoint.py lines 394..554) -/

/-- Clamp of one Python slice bound: a negative bound counts from the
end (clamped at 0), a nonnegative bound is clamped at the length. -/
def pySliceBound (n : Nat) (v : Int) : Nat :=
  if v < 0 then ((n : Int) + v).toNat else min n v.toNat

/-- Python list slice l[a:b] (step 1). -/
def pySlice {α : Type} (l : List α) (a b : Int) : List α :=
  let s := pySliceBound l.length a
  let e := pySliceBound l.length b
  (l.drop s).take (e - s)

/-- Inner recursion create_timepoints of
TimePoint._points_occurances_in_over_range, dimension by dimension over
the over units.  At the deepest level the concrete point is built from
null_over + accumulated values + the pattern's filled values; the filled
values require point.filled_timepoint_on_type.  current_month is updated
to i+1 (the position in the current range, not the enumerated value)
when the dimension is MH. -/
def create_timepoints (point : TimePoint) (null_over : List PyArg)
    (has_month : Bool) (starts ends : List Int) :
    List TUnit → Nat → Int → List Int → Bool → Bool → Except Err (List TimePoint)
  | [], _, _, accumulated, _, _ => do
      let ftp ← filled_timepoint_on_type point
      let all_values : List PyArg :=
        null_over ++ accumulated.map PyArg.intArg ++ ftp.values.map PyArg.intArg
      let elements ← call_units_vlaues_to_ordered_elements
        (all_values ++ [PyArg.boolArg point.is_iso])
      let tp ← mkTimePoint elements
      Except.ok [tp]
  | u :: rest, dim, current_month, accumulated, is_first, is_last => do
      let month : Option Int :=
        if u == TUnit.DY then (if has_month then some current_month else none) else none
      let current_range : List Int :=
        if u == TUnit.YR then intRange (starts.getD dim 0) (ends.getD dim 0 + 1)
        else if is_first then
          pySlice (unit_values_to_end_scope u 1 none) (starts.getD dim 0 - 1)
            (unit_values_to_end_scope u 1 none).length
        else if is_last then
          pySlice (unit_values_to_end_scope u 1 none) 0 (ends.getD dim 0)
        else unit_values_to_end_scope u 1 month
      let parts ← current_range.enum.mapM (fun iv =>
        create_timepoints point null_over has_month starts ends rest (dim + 1)
          (if u == TUnit.MH then (iv.1 : Int) + 1 else current_month)
          (accumulated ++ [iv.2])
          (iv.1 == 0) (iv.1 == current_range.length - 1))
      Except.ok parts.flatten

/-- TimePoint._points_occurances_in_over_range. -/
def points_occurances_in_over_range (point : TimePoint)
    (overs_starts overs_ends : List Int) : Except Err (List TimePoint) :=
  let overs_length := min overs_starts.length overs_ends.length
  let point_over_units := point.over_units
  let over_units := pySlice point_over_units (-(overs_length : Int))
    point_over_units.length
  let null_over : List PyArg :=
    List.replicate (point_over_units.length - overs_length) PyArg.noneArg
  let has_month := TUnit.MH ∈ over_units
  create_timepoints point null_over has_month overs_starts overs_ends
    over_units 0 1 [] true true

/-- TimePoint.occurrences_in_period.  The malformed-period check is a
Python for/else: iterate the zipped (start_value, end_value) pairs and
break at the first strictly increasing pair; only when no pair is
strictly increasing (in particular when the zip is empty) is
TimePointOccurrenceError raised. -/
def occurrences_in_period (point pstart pend : TimePoint) :
    Except Err (List TimePoint) := do
  if pstart.sequence_name ≠ pend.sequence_name ∨
      pstart.sequence_name ≠ point.sequence_name ∨
      pend.sequence_name ≠ point.sequence_name then
    Except.error Err.occSequence
  else
    let common_units := pstart.units.filter (fun u => u ∈ pend.units)
    let point_required_units :=
      pySlice point.over_units (-2) point.over_units.length
    if ¬ point_required_units.all (fun u => u ∈ common_units) then
      Except.error Err.occInsufficient
    else
      let start_point_common_count :=
        (pstart.units.filter (fun u => u ∈ point.units)).length
      let end_point_common_count :=
        (pend.units.filter (fun u => u ∈ point.units)).length
      let len_start_over_point : Int :=
        (pstart.units.length : Int) - start_point_common_count
      let len_end_over_point : Int :=
        (pend.units.length : Int) - end_point_common_count
      let common_over_length := min len_start_over_point len_end_over_point
      let start_values := pySlice pstart.values
        (-(len_start_over_point + common_over_length)) (-(len_start_over_point - 1))
      let end_values := pySlice pend.values
        (-(len_end_over_point + common_over_length)) (-(len_end_over_point - 1))
      if !(start_values.zip end_values).any (fun p => p.1 < p.2) then
        Except.error Err.occMalformed
      else
        points_occurances_in_over_range point start_values end_values

/-- The zipped (start_value, end_value) pairs of the shared over-unit
positions, exactly as occurrences_in_period computes them before its
malformed-period check: the same counts, lengths and slices as the
let bindings of the body above, ending in start_values.zip end_values. -/
def occ_shared_pairs (point pstart pend : TimePoint) : List (Int × Int) :=
  let start_point_common_count :=
    (pstart.units.filter (fun u => u ∈ point.units)).length
  let end_point_common_count :=
    (pend.units.filter (fun u => u ∈ point.units)).length
  let len_start_over_point : Int :=
    (pstart.units.length : Int) - start_point_common_count
  let len_end_over_point : Int :=
    (pend.units.length : Int) - end_point_common_count
  let common_over_length := min len_start_over_point len_end_over_point
  let start_values := pySlice pstart.values
    (-(len_start_over_point + common_over_length)) (-(len_start_over_point - 1))
  let end_values := pySlice pend.values
    (-(len_end_over_point + common_over_length)) (-(len_end_over_point - 1))
  start_values.zip end_values

/-! ## TimeSpan (timespan.py) -/

/-- constants.EdgeType. -/
inductive EdgeType
  | START | END
deriving DecidableEq, Repr

/-- constants.SpanType. -/
inductive SpanType
  | BETWEEN | BEFORE | AFTER
deriving DecidableEq, Repr

/-- configs.CombinedSequnce. -/
inductive CombinedSequnce
  | GRE | ISO | ISO_GRE
deriving DecidableEq, Repr

/-- constants.SpanContain. -/
inductive SpanContain
  | AHEAD | INSIDE | BEHIND | END_OVERLAPPED | START_OVERLAPPED | ERROR
deriving DecidableEq, Repr

/-- The fields a constructed two-point TimeSpan carries. -/
structure TimeSpanRec where
  span_start : TimePoint
  span_end : TimePoint
  start_edge : EdgeType
  end_edge : EdgeType
  span_type : SpanType
  sequence_combination : CombinedSequnce
  is_leap : Bool
  scope : Option TUnit
  available_years : Option (List Int)
deriving DecidableEq, Repr

/-- utilityfuncs.find_intersection (None is the universal set; results
are sorted). -/
def find_intersection : Option (List Int) → Option (List Int) → Option (List Int)
  | none, none => none
  | none, some l2 => some (l2.mergeSort (fun a b => a ≤ b))
  | some l1, none => some (l1.mergeSort (fun a b => a ≤ b))
  | some l1, some l2 => some ((l1.filter (fun y => y ∈ l2)).mergeSort (fun a b => a ≤ b))

/-- The two-point branch of TimeSpan.__init__ (timespan.py lines
140..194).  The scope check, the available-years intersection (later
overwritten), the comparator call with TimePointNotComparableError
wrapped into TimeSpanCreateArgumentError, the result dispatch (a dict
result is truthy because it always carries its three keys), and the
edge-dependent start/end filling through start_point / end_point. -/
def time_span_init_two (pstart : TimePoint) (start_edge : Option EdgeType)
    (pend : TimePoint) (end_edge : Option EdgeType) :
    Except Err TimeSpanRec := do
  if pstart.scope ≠ pend.scope then
    Except.error (Err.spanCreate SpanReason.scopeMismatch)
  else do
    let sequence_combination :=
      if xor pstart.is_iso pend.is_iso then CombinedSequnce.ISO_GRE
      else if pstart.is_iso && pend.is_iso then CombinedSequnce.ISO
      else CombinedSequnce.GRE
    let is_leap := pstart.is_leap || pend.is_leap
    let start_edge' := start_edge.getD EdgeType.START
    let end_edge' := end_edge.getD EdgeType.END
    let available0 := find_intersection pstart.available_years pend.available_years
    let result ← (match compare_points pend pstart with
      | Except.error Err.tpNotComparable =>
          Except.error (Err.spanCreate SpanReason.notComparableWrapped)
      | Except.error e => Except.error e
      | Except.ok r => Except.ok r)
    let isDict := match result with
      | CompResult.years _ _ _ => true
      | CompResult.intr _ => false
    if compResultEqInt result 0 then
      Except.error (Err.spanCreate SpanReason.noSpan)
    else if compResultEqInt result (-1) then
      Except.error (Err.spanCreate SpanReason.startGreater)
    else if compResultEqInt result (-2) then
      Except.error (Err.spanCreate SpanReason.notComparableResult)
    else if compResultEqInt result 1 || isDict then do
      let available_years := match result with
        | CompResult.years g _ _ => some g
        | CompResult.intr _ => none
      let _ := available0
      let s ← (if start_edge' == EdgeType.START then pstart.start_point else pstart.end_point)
      let e ← (if end_edge' == EdgeType.START then pend.start_point else pend.end_point)
      Except.ok
        { span_start := s, span_end := e, start_edge := start_edge',
          end_edge := end_edge', span_type := SpanType.BETWEEN,
          sequence_combination := sequence_combination, is_leap := is_leap,
          scope := pstart.scope, available_years := available_years }
    else
      Except.error (Err.spanCreate SpanReason.noSpanExists)

/-! ## Containment classifier (timespan.py lines 558..601) -/

/-- Result of TimeSpan.is_contained_in_preiod: one SpanContain value or a
per-year dictionary. -/
inductive ContainResult
  | single (c : SpanContain)
  | perYear (entries : List (Int × SpanContain))
deriving DecidableEq, Repr

/-- The inner check_contained lookup table of is_contained_in_preiod. -/
def check_contained (start_con end_con : Int) : SpanContain :=
  if start_con = 1 ∧ end_con = 1 then SpanContain.AHEAD
  else if start_con = 0 ∧ end_con = 0 then SpanContain.INSIDE
  else if start_con = -1 ∧ end_con = -1 then SpanContain.BEHIND
  else if start_con = 0 ∧ end_con = 1 then SpanContain.END_OVERLAPPED
  else if start_con = -1 ∧ end_con = 0 then SpanContain.START_OVERLAPPED
  else SpanContain.ERROR

/-- TimeSpan.is_contained_in_preiod.  Runs is_between_points for the
span's start and end against the period and combines the outcomes; note
that in the (int, dict) case the source passes the arguments to
check_contained in swapped order: check_contained(end_contained[y],
start_contained).  Only TimePointOccurrenceError is caught (re-raised as
TimeSpanOccurrenceError); other exception types propagate. -/
def is_contained_in_preiod (time_span : TimeSpanRec) (pstart pend : TimePoint) :
    Except Err ContainResult :=
  let body : Except Err ContainResult := do
    let start_contained ← is_between_points time_span.span_start pstart pend
    let end_contained ← is_between_points time_span.span_end pstart pend
    match start_contained, end_contained with
    | BetweenResult.intr a, BetweenResult.intr b =>
        Except.ok (ContainResult.single (check_contained a b))
    | BetweenResult.perYear m, BetweenResult.intr b =>
        Except.ok (ContainResult.perYear (m.map (fun p => (p.1, check_contained p.2 b))))
    | BetweenResult.intr a, BetweenResult.perYear m =>
        Except.ok (ContainResult.perYear (m.map (fun p => (p.1, check_contained p.2 a))))
    | BetweenResult.perYear m1, BetweenResult.perYear m2 =>
        Except.ok (ContainResult.perYear
          ((m1.filter (fun p => m2.any (fun q => q.1 == p.1))).map
            (fun p => (p.1, check_contained p.2
              (((m2.find? (fun q => q.1 == p.1)).map (fun q => q.2)).getD 0)))))
  match body with
  | Except.error Err.occSequence => Except.error Err.spanOccurrence
  | Except.error Err.occInsufficient => Except.error Err.spanOccurrence
  | Except.error Err.occMalformed => Except.error Err.spanOccurrence
  | r => r

/-! ## Tokenizer (timeelement.py parse_time_string_to_elements)

Each unit's combined pattern f"({default}|{alternative})" is matched with
re.match against the remaining string, units in registry order (SD, ME,
HR, WY, WK, DY, MH, YR); the first match wins, its value is extracted
(first digit run for range units, allowed-values lookup falling back to
the digit run for list units) and validated (a validation failure raises
ValueError and aborts the parse); if no unit matches, one character is
moved to the unmatched list.  Each matcher below returns the extracted
value and the length of the matched prefix. -/

/-- Bool test that a character lies in an inclusive range. -/
def charBetween (lo hi c : Char) : Bool := decide (lo ≤ c ∧ c ≤ hi)

/-- Integer value of a decimal digit character. -/
def dval (c : Char) : Int := (c.toNat : Int) - ('0'.toNat : Int)

/-- Lookahead (?!\d): the next character, if any, is not a digit. -/
def nextNotDigit : List Char → Bool
  | [] => true
  | c :: _ => !c.isDigit

/-- Second matcher alternative for SD: S[0-5]\d. -/
def matchSDalt : List Char → Option (Int × Nat)
  | 'S' :: a :: b :: _ =>
      if charBetween '0' '5' a && b.isDigit then some (dval a * 10 + dval b, 3) else none
  | _ => none

/-- SD pattern: :[0-5]\d\. then the alternative. -/
def matchSD (cs : List Char) : Option (Int × Nat) :=
  match cs with
  | ':' :: a :: b :: '.' :: _ =>
      if charBetween '0' '5' a && b.isDigit then some (dval a * 10 + dval b, 4)
      else matchSDalt cs
  | _ => matchSDalt cs

/-- Second matcher alternative for ME: M[0-5]\d. -/
def matchMEalt : List Char → Option (Int × Nat)
  | 'M' :: a :: b :: _ =>
      if charBetween '0' '5' a && b.isDigit then some (dval a * 10 + dval b, 3) else none
  | _ => none

/-- ME pattern: :[0-5]\d then the alternative. -/
def matchME (cs : List Char) : Option (Int × Nat) :=
  match cs with
  | ':' :: a :: b :: _ =>
      if charBetween '0' '5' a && b.isDigit then some (dval a * 10 + dval b, 3)
      else matchMEalt cs
  | _ => matchMEalt cs

/-- Hour digit pair: [01]\d or 2[0-3]. -/
def hourClass (a b : Char) : Bool :=
  ((a == '0' || a == '1') && b.isDigit) || (a == '2' && charBetween '0' '3' b)

/-- Second matcher alternative for HR: H[01]\d|H2[0-3]. -/
def matchHRalt : List Char → Option (Int × Nat)
  | 'H' :: a :: b :: _ =>
      if hourClass a b then some (dval a * 10 + dval b, 3) else none
  | _ => none

/-- HR pattern: T[01]\d|T2[0-3] then the alternative. -/
def matchHR (cs : List Char) : Option (Int × Nat) :=
  match cs with
  | 'T' :: a :: b :: _ =>
      if hourClass a b then some (dval a * 10 + dval b, 3)
      else matchHRalt cs
  | _ => matchHRalt cs

/-- Weekday two-letter codes of the WY allowed values. -/
def weekdayNameVal (c1 c2 : Char) : Option Int :=
  if c1 = 'M' ∧ c2 = 'O' then some 1
  else if c1 = 'T' ∧ c2 = 'U' then some 2
  else if c1 = 'W' ∧ c2 = 'E' then some 3
  else if c1 = 'T' ∧ c2 = 'H' then some 4
  else if c1 = 'F' ∧ c2 = 'R' then some 5
  else if c1 = 'S' ∧ c2 = 'A' then some 6
  else if c1 = 'S' ∧ c2 = 'U' then some 7
  else none

/-- Second matcher alternative for WY: MO|TU|WE|TH|FR|SA|SU (list
lookup of the matched string). -/
def matchWYalt : List Char → Option (Int × Nat)
  | c1 :: c2 :: _ =>
      match weekdayNameVal c1 c2 with
      | some v => some (v, 2)
      | none => none
  | _ => none

/-- WY pattern: -(1|2|3|4|5|6|7)(?!\d) then the alternative; the value of
the default form comes from the digit run of the matched "-d". -/
def matchWY (cs : List Char) : Option (Int × Nat) :=
  match cs with
  | '-' :: d :: rest =>
      if charBetween '1' '7' d && nextNotDigit rest then some (dval d, 2)
      else matchWYalt cs
  | _ => matchWYalt cs

/-- Week digit pair: [0-4]\d or 5[0-3]. -/
def weekClass (a b : Char) : Bool :=
  (charBetween '0' '4' a && b.isDigit) || (a == '5' && charBetween '0' '3' b)

/-- Second matcher alternative for WK: W[0-4]\d|W5[0-3]. -/
def matchWKalt : List Char → Option (Int × Nat)
  | 'W' :: a :: b :: _ =>
      if weekClass a b then some (dval a * 10 + dval b, 3) else none
  | _ => none

/-- WK pattern: -W[0-4]\d|-W5[0-3] then the alternative. -/
def matchWK (cs : List Char) : Option (Int × Nat) :=
  match cs with
  | '-' :: 'W' :: a :: b :: _ =>
      if weekClass a b then some (dval a * 10 + dval b, 4)
      else matchWKalt cs
  | _ => matchWKalt cs

/-- Day digit pair: 0[1-9]|[12]\d|3[01]. -/
def dayClass (a b : Char) : Bool :=
  (a == '0' && charBetween '1' '9' b) || ((a == '1' || a == '2') && b.isDigit)
    || (a == '3' && (b == '0' || b == '1'))

/-- Second matcher alternative for DY: D(0[1-9]|[12]\d|3[01]), without
the lookahead of the default form. -/
def matchDYalt : List Char → Option (Int × Nat)
  | 'D' :: a :: b :: _ =>
      if dayClass a b then some (dval a * 10 + dval b, 3) else none
  | _ => none

/-- DY pattern: (?<!\d)(0[1-9]|[12]\d|3[01])(?!\d) then the alternative;
the lookbehind is vacuous at the start of the remaining string. -/
def matchDY (cs : List Char) : Option (Int × Nat) :=
  match cs with
  | a :: b :: rest =>
      if dayClass a b && nextNotDigit rest then some (dval a * 10 + dval b, 2)
      else matchDYalt cs
  | _ => matchDYalt cs

/-- Month digit pair: 01..12. -/
def monthClass (a b : Char) : Bool :=
  (a == '0' && charBetween '1' '9' b) || (a == '1' && charBetween '0' '2' b)

/-- Month three-letter names of the MH allowed values. -/
def monthNameVal (c1 c2 c3 : Char) : Option Int :=
  if c1 = 'J' ∧ c2 = 'a' ∧ c3 = 'n' then some 1
  else if c1 = 'F' ∧ c2 = 'e' ∧ c3 = 'b' then some 2
  else if c1 = 'M' ∧ c2 = 'a' ∧ c3 = 'r' then some 3
  else if c1 = 'A' ∧ c2 = 'p' ∧ c3 = 'r' then some 4
  else if c1 = 'M' ∧ c2 = 'a' ∧ c3 = 'y' then some 5
  else if c1 = 'J' ∧ c2 = 'u' ∧ c3 = 'n' then some 6
  else if c1 = 'J' ∧ c2 = 'u' ∧ c3 = 'l' then some 7
  else if c1 = 'A' ∧ c2 = 'u' ∧ c3 = 'g' then some 8
  else if c1 = 'S' ∧ c2 = 'e' ∧ c3 = 'p' then some 9
  else if c1 = 'O' ∧ c2 = 'c' ∧ c3 = 't' then some 10
  else if c1 = 'N' ∧ c2 = 'o' ∧ c3 = 'v' then some 11
  else if c1 = 'D' ∧ c2 = 'e' ∧ c3 = 'c' then some 12
  else none

/-- Second matcher alternative for MH: the month names (list lookup of
the matched string). -/
def matchMHalt : List Char → Option (Int × Nat)
  | c1 :: c2 :: c3 :: _ =>
      match monthNameVal c1 c2 c3 with
      | some v => some (v, 3)
      | none => none
  | _ => none

/-- MH pattern: -(01|..|12)- then the alternative; the value of the
default form comes from the digit run of the matched "-mm-". -/
def matchMH (cs : List Char) : Option (Int × Nat) :=
  match cs with
  | '-' :: a :: b :: '-' :: _ =>
      if monthClass a b then some (dval a * 10 + dval b, 4)
      else matchMHalt cs
  | _ => matchMHalt cs

/-- Second matcher alternative for YR: Y(\d{4}); the matched string
includes the Y, the value is its digit run. -/
def matchYRalt : List Char → Option (Int × Nat)
  | 'Y' :: a :: b :: c :: d :: _ =>
      if a.isDigit && b.isDigit && c.isDigit && d.isDigit then
        some (dval a * 1000 + dval b * 100 + dval c * 10 + dval d, 5)
      else none
  | _ => none

/-- YR pattern: (?<!\d)\d{4}(?!\d) then the alternative; the lookbehind
is vacuous at the start of the remaining string. -/
def matchYR (cs : List Char) : Option (Int × Nat) :=
  match cs with
  | a :: b :: c :: d :: rest =>
      if a.isDigit && b.isDigit && c.isDigit && d.isDigit && nextNotDigit rest then
        some (dval a * 1000 + dval b * 100 + dval c * 10 + dval d, 4)
      else matchYRalt cs
  | _ => matchYRalt cs

/-- Matcher of a single unit's combined pattern. -/
def matchUnitAt (u : TUnit) (cs : List Char) : Option (Int × Nat) :=
  match u with
  | TUnit.SD => matchSD cs
  | TUnit.ME => matchME cs
  | TUnit.HR => matchHR cs
  | TUnit.WY => matchWY cs
  | TUnit.WK => matchWK cs
  | TUnit.DY => matchDY cs
  | TUnit.MH => matchMH cs
  | TUnit.YR => matchYR cs

/-- First unit of the registry order whose pattern matches the head of
the remaining string. -/
def matchFirstUnit (cs : List Char) : Option (TUnit × Int × Nat) :=
  unitsOrder.findSome? (fun u => (matchUnitAt u cs).map (fun vn => (u, vn.1, vn.2)))

/-- The tokenizer loop of TimeElement.parse_time_string_to_elements,
with fuel bounding the number of iterations.  Every successful match
consumes at least one character (see matchFirstUnit_consumes in the
theorems below), so fuel equal to the string length never runs out; the
out-of-fuel arm is unreachable. -/
def tokenizeFuel : Nat → List Char →
    Except Err (List TimeElement × List (List Char) × List Char)
  | _, [] => Except.ok ([], [], [])
  | 0, _ :: _ =>
      Except.error (Err.valueError "tokenize: out of fuel (unreachable)")
  | fuel + 1, c :: rest =>
      match matchFirstUnit (c :: rest) with
      | some (u, v, n) =>
          if validate_value u v then
            match tokenizeFuel fuel ((c :: rest).drop n) with
            | Except.ok (els, ms, um) =>
                Except.ok (TimeElement.mk u v :: els, ((c :: rest).take n) :: ms, um)
            | Except.error e => Except.error e
          else
            Except.error (Err.valueError
              "parse_time_string_to_elements: error validating value for unit")
      | none =>
          match tokenizeFuel fuel rest with
          | Except.ok (els, ms, um) => Except.ok (els, ms, c :: um)
          | Except.error e => Except.error e

/-- TimeElement.parse_time_string_to_elements: returns the matched
elements, the matched substrings and the unmatched characters (the
Python version holds the unmatched characters as one-character
strings). -/
def parse_time_string_to_elements (s : List Char) :
    Except Err (List TimeElement × List (List Char) × List Char) :=
  tokenizeFuel s.length s

/-- TimePoint._parse_elements_from_string: a ValueError from the
tokenizer becomes TimePointCreationError; an empty element list is
rejected before a non-empty unmatched list. -/
def timepoint_parse_from_string (s : List Char) : Except Err (List TimeElement) :=
  match parse_time_string_to_elements s with
  | Except.error (Err.valueError m) =>
      Except.error (Err.tpCreation ("Error in creating TimePoint instance: " ++ m))
  | Except.error e => Except.error e
  | Except.ok (els, _ms, um) =>
      if els.isEmpty then Except.error Err.tpArgumentNoElements
      else if !um.isEmpty then Except.error (Err.tpArgumentUnmatched um)
      else Except.ok els

/-- TimePoint.__init__ with a string argument. -/
def timepoint_from_string (s : List Char) : Except Err TimePoint := do
  let els ← timepoint_parse_from_string s
  mkTimePoint els

/-! ## Helper lemmas

General facts about the embedded definitions that several of the theorems
below share: membership in the integer range, the day count of a year
boundary, equivalence of the December 31 and December 28 ISO week 53
tests, and that every successful tokenizer match consumes at least one
character and never more than the remaining string. -/

theorem mem_intRange_iff (a b y : Int) : y ∈ intRange a b ↔ a ≤ y ∧ y < b := by
  unfold intRange
  rw [List.mem_map]
  constructor
  · rintro ⟨i, hi, rfl⟩
    rw [List.mem_range] at hi
    omega
  · rintro ⟨h1, h2⟩
    refine ⟨(y - a).toNat, ?_, ?_⟩
    · rw [List.mem_range]
      omega
    · omega

theorem daysBeforeYear_succ (y : Int) :
    daysBeforeYear (y + 1) = daysBeforeYear y + 365 + (if pyIsLeap y then 1 else 0) := by
  unfold daysBeforeYear pyIsLeap
  split_ifs with h
  · simp only [Bool.and_eq_true, beq_iff_eq, Bool.or_eq_true, bne_iff_ne, ne_eq] at h
    omega
  · simp only [Bool.and_eq_true, beq_iff_eq, Bool.or_eq_true, bne_iff_ne, ne_eq,
      not_and, not_or, not_not] at h
    omega

theorem dec31_iff_dec28 (y : Int) :
    (isocalWeek y 12 31 = 53) ↔ (isocalWeek y 12 28 = 53) := by
  have h365 := daysBeforeYear_succ y
  unfold isocalWeek isoweek1monday ymd2ord
  simp only [daysBeforeMonthTbl]
  norm_num
  rw [h365]
  generalize daysBeforeYear y = D
  by_cases hl : pyIsLeap y
  · simp only [hl, if_true, and_true, show ((2:Int) < 12) = True from by norm_num, true_and]
    split_ifs <;> omega
  · simp only [hl, Bool.false_eq_true, and_false, if_false]
    split_ifs <;> omega

theorem findSome?_attach {α β : Type} (p : α → Option β) (P : β → Prop)
    (l : List α) (hp : ∀ a b, p a = some b → P b) (b : β)
    (h : l.findSome? p = some b) : P b := by
  induction l with
  | nil => simp [List.findSome?_nil] at h
  | cons a l ih =>
      rw [List.findSome?_cons] at h
      cases hpa : p a with
      | some c => rw [hpa] at h; cases h; exact hp a b hpa
      | none => rw [hpa] at h; exact ih h

theorem matchSDalt_consumes (cs : List Char) (v : Int) (n : Nat)
    (h : matchSDalt cs = some (v, n)) : 1 ≤ n ∧ n ≤ cs.length := by
  unfold matchSDalt at h
  split at h
  · split at h
    · cases h; simp
    · cases h
  · cases h

theorem matchSD_consumes (cs : List Char) (v : Int) (n : Nat)
    (h : matchSD cs = some (v, n)) : 1 ≤ n ∧ n ≤ cs.length := by
  unfold matchSD at h
  split at h
  · split at h
    · cases h; simp
    · exact matchSDalt_consumes _ _ _ h
  · exact matchSDalt_consumes _ _ _ h

theorem matchMEalt_consumes (cs : List Char) (v : Int) (n : Nat)
    (h : matchMEalt cs = some (v, n)) : 1 ≤ n ∧ n ≤ cs.length := by
  unfold matchMEalt at h
  split at h
  · split at h
    · cases h; simp
    · cases h
  · cases h

theorem matchME_consumes (cs : List Char) (v : Int) (n : Nat)
    (h : matchME cs = some (v, n)) : 1 ≤ n ∧ n ≤ cs.length := by
  unfold matchME at h
  split at h
  · split at h
    · cases h; simp
    · exact matchMEalt_consumes _ _ _ h
  · exact matchMEalt_consumes _ _ _ h

theorem matchHRalt_consumes (cs : List Char) (v : Int) (n : Nat)
    (h : matchHRalt cs = some (v, n)) : 1 ≤ n ∧ n ≤ cs.length := by
  unfold matchHRalt at h
  split at h
  · split at h
    · cases h; simp
    · cases h
  · cases h

theorem matchHR_consumes (cs : List Char) (v : Int) (n : Nat)
    (h : matchHR cs = some (v, n)) : 1 ≤ n ∧ n ≤ cs.length := by
  unfold matchHR at h
  split at h
  · split at h
    · cases h; simp
    · exact matchHRalt_consumes _ _ _ h
  · exact matchHRalt_consumes _ _ _ h

theorem matchWYalt_consumes (cs : List Char) (v : Int) (n : Nat)
    (h : matchWYalt cs = some (v, n)) : 1 ≤ n ∧ n ≤ cs.length := by
  unfold matchWYalt at h
  split at h
  · split at h
    · cases h; simp
    · cases h
  · cases h

theorem matchWY_consumes (cs : List Char) (v : Int) (n : Nat)
    (h : matchWY cs = some (v, n)) : 1 ≤ n ∧ n ≤ cs.length := by
  unfold matchWY at h
  split at h
  · split at h
    · cases h; simp
    · exact matchWYalt_consumes _ _ _ h
  · exact matchWYalt_consumes _ _ _ h

theorem matchWKalt_consumes (cs : List Char) (v : Int) (n : Nat)
    (h : matchWKalt cs = some (v, n)) : 1 ≤ n ∧ n ≤ cs.length := by
  unfold matchWKalt at h
  split at h
  · split at h
    · cases h; simp
    · cases h
  · cases h

theorem matchWK_consumes (cs : List Char) (v : Int) (n : Nat)
    (h : matchWK cs = some (v, n)) : 1 ≤ n ∧ n ≤ cs.length := by
  unfold matchWK at h
  split at h
  · split at h
    · cases h; simp
    · exact matchWKalt_consumes _ _ _ h
  · exact matchWKalt_consumes _ _ _ h

theorem matchDYalt_consumes (cs : List Char) (v : Int) (n : Nat)
    (h : matchDYalt cs = some (v, n)) : 1 ≤ n ∧ n ≤ cs.length := by
  unfold matchDYalt at h
  split at h
  · split at h
    · cases h; simp
    · cases h
  · cases h

theorem matchDY_consumes (cs : List Char) (v : Int) (n : Nat)
    (h : matchDY cs = some (v, n)) : 1 ≤ n ∧ n ≤ cs.length := by
  unfold matchDY at h
  split at h
  · split at h
    · cases h; simp
    · exact matchDYalt_consumes _ _ _ h
  · exact matchDYalt_consumes _ _ _ h

theorem matchMHalt_consumes (cs : List Char) (v : Int) (n : Nat)
    (h : matchMHalt cs = some (v, n)) : 1 ≤ n ∧ n ≤ cs.length := by
  unfold matchMHalt at h
  split at h
  · split at h
    · cases h; simp
    · cases h
  · cases h

theorem matchMH_consumes (cs : List Char) (v : Int) (n : Nat)
    (h : matchMH cs = some (v, n)) : 1 ≤ n ∧ n ≤ cs.length := by
  unfold matchMH at h
  split at h
  · split at h
    · cases h; simp
    · exact matchMHalt_consumes _ _ _ h
  · exact matchMHalt_consumes _ _ _ h

theorem matchYRalt_consumes (cs : List Char) (v : Int) (n : Nat)
    (h : matchYRalt cs = some (v, n)) : 1 ≤ n ∧ n ≤ cs.length := by
  unfold matchYRalt at h
  split at h
  · split at h
    · cases h; simp
    · cases h
  · cases h

theorem matchYR_consumes (cs : List Char) (v : Int) (n : Nat)
    (h : matchYR cs = some (v, n)) : 1 ≤ n ∧ n ≤ cs.length := by
  unfold matchYR at h
  split at h
  · split at h
    · cases h; simp
    · exact matchYRalt_consumes _ _ _ h
  · exact matchYRalt_consumes _ _ _ h

theorem matchUnitAt_consumes (u : TUnit) (cs : List Char) (v : Int) (n : Nat)
    (h : matchUnitAt u cs = some (v, n)) : 1 ≤ n ∧ n ≤ cs.length := by
  cases u
  case SD => exact matchSD_consumes _ _ _ h
  case ME => exact matchME_consumes _ _ _ h
  case HR => exact matchHR_consumes _ _ _ h
  case WY => exact matchWY_consumes _ _ _ h
  case WK => exact matchWK_consumes _ _ _ h
  case DY => exact matchDY_consumes _ _ _ h
  case MH => exact matchMH_consumes _ _ _ h
  case YR => exact matchYR_consumes _ _ _ h

theorem matchFirstUnit_consumes (cs : List Char) (u : TUnit) (v : Int) (n : Nat)
    (h : matchFirstUnit cs = some (u, v, n)) : 1 ≤ n ∧ n ≤ cs.length := by
  unfold matchFirstUnit at h
  refine findSome?_attach _ (fun t => 1 ≤ t.2.2 ∧ t.2.2 ≤ cs.length) unitsOrder ?_ _ h
  intro a b hab
  rw [Option.map_eq_some'] at hab
  obtain ⟨⟨vv, nn⟩, hm, rfl⟩ := hab
  exact matchUnitAt_consumes a cs vv nn hm

theorem tokenizeFuel_ok_or_invalid : ∀ (fuel : Nat) (cs : List Char), cs.length ≤ fuel →
    (∃ r, tokenizeFuel fuel cs = Except.ok r) ∨
      tokenizeFuel fuel cs = Except.error (Err.valueError
        "parse_time_string_to_elements: error validating value for unit") := by
  intro fuel
  induction fuel with
  | zero =>
      intro cs h
      cases cs with
      | nil => exact Or.inl ⟨_, rfl⟩
      | cons c rest => simp at h
  | succ fuel ih =>
      intro cs h
      cases cs with
      | nil => exact Or.inl ⟨_, rfl⟩
      | cons c rest =>
          rw [tokenizeFuel]
          cases hm : matchFirstUnit (c :: rest) with
          | none =>
              have hlen : rest.length ≤ fuel := by
                simp only [List.length_cons] at h; omega
              rcases ih rest hlen with ⟨r, hr⟩ | hr
              · rw [hr]; exact Or.inl ⟨_, rfl⟩
              · rw [hr]; exact Or.inr rfl
          | some t =>
              obtain ⟨u, v, n⟩ := t
              have hc := matchFirstUnit_consumes _ _ _ _ hm
              by_cases hv : validate_value u v
              · simp only [hv, if_true]
                have hlen : ((c :: rest).drop n).length ≤ fuel := by
                  rw [List.length_drop]
                  simp only [List.length_cons] at h hc ⊢
                  omega
                rcases ih _ hlen with ⟨⟨els, ms, um⟩, hr⟩ | hr
                · rw [hr]; exact Or.inl ⟨_, rfl⟩
                · rw [hr]; exact Or.inr rfl
              · simp only [hv, if_false]
                exact Or.inr rfl

theorem tokenizeFuel_partition : ∀ (fuel : Nat) (cs : List Char)
    (els : List TimeElement) (ms : List (List Char)) (um : List Char),
    tokenizeFuel fuel cs = Except.ok (els, ms, um) →
    (ms.map List.length).sum + um.length = cs.length := by
  intro fuel
  induction fuel with
  | zero =>
      intro cs els ms um h
      cases cs with
      | nil => cases h; simp
      | cons c rest => cases h
  | succ fuel ih =>
      intro cs els ms um h
      cases cs with
      | nil => cases h; simp
      | cons c rest =>
          rw [tokenizeFuel] at h
          split at h
          · rename_i u v n heq
            split at h
            · rename_i hv
              split at h
              · rename_i els2 ms2 um2 heq2
                cases h
                have hc := matchFirstUnit_consumes _ _ _ _ heq
                have hrec := ih _ _ _ _ heq2
                rw [List.length_drop] at hrec
                simp only [List.map_cons, List.sum_cons, List.length_take]
                simp only [List.length_cons] at hc hrec ⊢
                omega
              · cases h
            · cases h
          · split at h
            · rename_i els2 ms2 um2 heq2
              cases h
              have hrec := ih _ _ _ _ heq2
              simp only [List.length_cons]
              omega
            · cases h

/-! ## The claims -/

open TUnit in
/-- C1: comparator antisymmetry demands compare_points a a = 0 for every
valid TimePoint a; instead, for the concrete Gregorian point 2020-08-01,
compare_points a a raises TimePointNotComparableError, because the index
call of compare_two_ordered_comparable_elements searches the unit-name
sequence tuple for a TimeElement object and always raises ValueError,
which compare_points catches and re-raises as not comparable. -/
theorem C1_compare_points_self_not_comparable :
    (do
      let a ← mkTimePoint [⟨YR, 2020⟩, ⟨MH, 8⟩, ⟨DY, 1⟩]
      compare_points a a) = Except.error Err.tpNotComparable := rfl

open TUnit in
/-- C2: the claim expects 21 monthly occurrence points for the pattern
(day 20, hour 22) over the period 2020-08-01 to 2022-04-28; instead
occurrences_in_period raises TypeError, because the leaf constructors
call units_vlaues_to_ordered_elements with seven positional arguments
for eight required parameters (week is missing). -/
theorem C2_occurrences_in_period_type_error :
    (do
      let point ← mkTimePoint [⟨DY, 20⟩, ⟨HR, 22⟩]
      let pstart ← mkTimePoint [⟨YR, 2020⟩, ⟨MH, 8⟩, ⟨DY, 1⟩]
      let pend ← mkTimePoint [⟨YR, 2022⟩, ⟨MH, 4⟩, ⟨DY, 28⟩]
      occurrences_in_period point pstart pend) =
      Except.error (Err.typeError
        "units_vlaues_to_ordered_elements() missing 1 required positional argument: week") := rfl

open TUnit in
/-- C3: the claim expects the two-point TimeSpan constructor to fail with
the start-greater-than-end argument error on the reversed bounds
2022-12-31 and 2022-01-01; instead construction fails with the wrapped
not-comparable error, because every comparator call raises
TimePointNotComparableError before any ordering can be decided. -/
theorem C3_reversed_span_not_comparable_error :
    (do
      let pstart ← mkTimePoint [⟨YR, 2022⟩, ⟨MH, 12⟩, ⟨DY, 31⟩]
      let pend ← mkTimePoint [⟨YR, 2022⟩, ⟨MH, 1⟩, ⟨DY, 1⟩]
      time_span_init_two pstart none pend none) =
      Except.error (Err.spanCreate SpanReason.notComparableWrapped) := rfl

open TUnit in
/-- C4: the claim expects containment classification through the fixed
lookup table, INSIDE for the span March 2022 against the period year
2022; instead is_contained_in_preiod raises TypeError, because the
is_between_points sub-comparisons complete their points through
filled_timepoint_on_type, whose call of units_vlaues_to_ordered_elements
misses the week argument. -/
theorem C4_is_contained_in_preiod_type_error :
    (do
      let s ← mkTimePoint [⟨YR, 2022⟩, ⟨MH, 3⟩, ⟨DY, 1⟩, ⟨HR, 0⟩, ⟨ME, 0⟩, ⟨SD, 0⟩]
      let e ← mkTimePoint [⟨YR, 2022⟩, ⟨MH, 3⟩, ⟨DY, 31⟩, ⟨HR, 23⟩, ⟨ME, 59⟩, ⟨SD, 59⟩]
      let ps ← mkTimePoint [⟨YR, 2022⟩, ⟨MH, 1⟩, ⟨DY, 1⟩]
      let pe ← mkTimePoint [⟨YR, 2022⟩, ⟨MH, 12⟩, ⟨DY, 31⟩]
      is_contained_in_preiod
        { span_start := s, span_end := e, start_edge := EdgeType.START,
          end_edge := EdgeType.END, span_type := SpanType.BETWEEN,
          sequence_combination := CombinedSequnce.GRE,
          is_leap := s.is_leap || e.is_leap, scope := s.scope,
          available_years := none } ps pe) =
      Except.error (Err.typeError
        "units_vlaues_to_ordered_elements() missing 1 required positional argument: week") := rfl

open TUnit in
/-- C5: leap-day validity.  A TimePoint from month 2 and day 29 with no
year succeeds (a leap year is assumed), from year 2023 month 2 day 29
fails with a creation error since 2023 is not a leap year, and from year
2020 month 2 day 29 succeeds. -/
theorem C5_leap_day_validity :
    (mkTimePoint [⟨MH, 2⟩, ⟨DY, 29⟩]).isOk = true ∧
    mkTimePoint [⟨YR, 2023⟩, ⟨MH, 2⟩, ⟨DY, 29⟩] =
      Except.error (Err.tpCreation
        "Error in creating TimePoint instance: is_ordered_elements:check_elements_validity: day not valid for month in non leap year") ∧
    (mkTimePoint [⟨YR, 2020⟩, ⟨MH, 2⟩, ⟨DY, 29⟩]).isOk = true :=
  ⟨rfl, rfl, rfl⟩

open TUnit in
/-- C6: the years with 53 ISO weeks in the range 2000 to 2020 are exactly
2004, 2009, 2015 and 2020; and a TimePoint with year 2021, week 53 and
any weekday value w (1 to 7) fails with a creation error, because 2021
is not a 53-week year. -/
theorem C6_fifty_three_week_years (w : Int) (h1 : 1 ≤ w) (h7 : w ≤ 7) :
    years_with_53_weeks 2000 2020 = [2004, 2009, 2015, 2020] ∧
    mkTimePoint [⟨YR, 2021⟩, ⟨WK, 53⟩, ⟨WY, w⟩] = Except.error (Err.tpCreation
      "Error in creating TimePoint instance: is_ordered_elements:check_elements_validity: the year does not have 53 weeks") := by
  constructor
  · rfl
  · have hmem2004 : (2004 : Int) ∈ find_year_with_53_weeks w 2100 := by
      unfold find_year_with_53_weeks
      rw [List.mem_filter, mem_intRange_iff]
      exact ⟨⟨by omega, by omega⟩, by decide⟩
    have hne : find_year_with_53_weeks w 2100 ≠ [] := List.ne_nil_of_mem hmem2004
    have hie : (find_year_with_53_weeks w 2100).isEmpty = false := by
      cases hh : (find_year_with_53_weeks w 2100).isEmpty
      · rfl
      · exact absurd (List.isEmpty_iff.mp hh) hne
    have hnot2021 : ¬ ((2021 : Int) ∈ find_year_with_53_weeks w 2100) := by
      unfold find_year_with_53_weeks
      rw [List.mem_filter]
      rintro ⟨-, hw⟩
      revert hw
      decide
    have hvalid : check_elements_validity [⟨YR, (2021:Int)⟩, ⟨WK, 53⟩, ⟨WY, w⟩] =
        Except.error (Err.valueError "check_elements_validity: the year does not have 53 weeks") := by
      unfold check_elements_validity
      simp +decide [what_is_sequence, greSeq, isoSeq, get_value_by_unit_from_elements,
        check_possibility_weekday_week, hie, hnot2021, bind, Except.bind]
    have hord : is_ordered_elements [⟨YR, (2021:Int)⟩, ⟨WK, 53⟩, ⟨WY, w⟩] =
        Except.error (Err.valueError "is_ordered_elements:check_elements_validity: the year does not have 53 weeks") := by
      unfold is_ordered_elements
      simp +decide [get_elements_sequence, greSeq, isoSeq, find_duplicate_units,
        sort_elements_by_sequence, get_element_by_unit_from_elements, hvalid, wrapValueError,
        List.flatMap_cons, List.flatMap_nil, List.filter_cons, List.filter_nil]
    have hsort : sort_elements_by_sequence [⟨YR, (2021:Int)⟩, ⟨WK, 53⟩, ⟨WY, w⟩] =
        (some [⟨YR, 2021⟩, ⟨WK, 53⟩, ⟨WY, w⟩], []) := by
      rfl
    simp only [mkTimePoint, hsort, hord, List.isEmpty_nil, Bool.not_true, if_false,
      Bool.false_eq_true, ite_false]
    rfl

open TUnit in
/-- Witness for C6 at the concrete weekday value 1. -/
theorem C6_fifty_three_week_years_witness :
    years_with_53_weeks 2000 2020 = [2004, 2009, 2015, 2020] ∧
    mkTimePoint [⟨YR, 2021⟩, ⟨WK, 53⟩, ⟨WY, 1⟩] = Except.error (Err.tpCreation
      "Error in creating TimePoint instance: is_ordered_elements:check_elements_validity: the year does not have 53 weeks") :=
  C6_fifty_three_week_years 1 (by decide) (by decide)

open TUnit in
/-- C7: the claim expects is_between_points to return a ternary indicator
or a per-year map for comparable points with ordered bounds; instead, for
the concrete point 2021-02-10 against the bounds 2021-01-01 and
2021-12-31, it raises TypeError, because the completion of the three
points through filled_timepoint_on_type calls
units_vlaues_to_ordered_elements without the week argument. -/
theorem C7_is_between_points_type_error :
    (do
      let point ← mkTimePoint [⟨YR, 2021⟩, ⟨MH, 2⟩, ⟨DY, 10⟩]
      let pstart ← mkTimePoint [⟨YR, 2021⟩, ⟨MH, 1⟩, ⟨DY, 1⟩]
      let pend ← mkTimePoint [⟨YR, 2021⟩, ⟨MH, 12⟩, ⟨DY, 31⟩]
      is_between_points point pstart pend) =
      Except.error (Err.typeError
        "units_vlaues_to_ordered_elements() missing 1 required positional argument: week") := rfl

open TUnit in
/-- C8 counterexample: for the pattern (day 20, hour 22) and the period
2020-08-01 to 2022-04-28 the shared over-unit pairs are (2020, 2022) and
(8, 4), so not every position is strictly increasing and the claimed
precondition calls the period malformed; yet occurrences_in_period does
not raise the occurrence error, because the malformed check is a Python
for-else that only fires when no position at all is strictly increasing,
and the first pair 2020 less than 2022 already breaks the loop. -/
theorem C8_counterexample :
    ((do
      let point ← mkTimePoint [⟨DY, 20⟩, ⟨HR, 22⟩]
      let pstart ← mkTimePoint [⟨YR, 2020⟩, ⟨MH, 8⟩, ⟨DY, 1⟩]
      let pend ← mkTimePoint [⟨YR, 2022⟩, ⟨MH, 4⟩, ⟨DY, 28⟩]
      Except.ok (occ_shared_pairs point pstart pend,
        occurrences_in_period point pstart pend)) =
      Except.ok ([((2020 : Int), (2022 : Int)), (8, 4)],
        Except.error (Err.typeError
          "units_vlaues_to_ordered_elements() missing 1 required positional argument: week"))) ∧
    ¬ (∀ q ∈ [((2020 : Int), (2022 : Int)), (8, 4)], q.1 < q.2) :=
  ⟨rfl, by decide⟩

/-- C8 (amended): occurrences_in_period raises the malformed-period
occurrence error exactly in the for-else case: when the sequence and
shared-over-unit guards pass and no shared over-unit position has the
period start value strictly less than the period end value. -/
theorem C8_malformed_only_when_no_increasing_pair
    (point pstart pend : TimePoint)
    (hseq1 : pstart.sequence_name = pend.sequence_name)
    (hseq2 : pstart.sequence_name = point.sequence_name)
    (hseq3 : pend.sequence_name = point.sequence_name)
    (hsuff : (pySlice point.over_units (-2) point.over_units.length).all
      (fun u => u ∈ pstart.units.filter (fun u => u ∈ pend.units)) = true)
    (hmal : (occ_shared_pairs point pstart pend).any (fun q => q.1 < q.2) = false) :
    occurrences_in_period point pstart pend = Except.error Err.occMalformed := by
  unfold occ_shared_pairs at hmal
  unfold occurrences_in_period
  simp only [hseq1, hseq2, hseq3, ne_eq, not_true_eq_false, false_or, or_self,
    if_false, hsuff, not_true, ite_false, hmal, Bool.not_false, if_true, ite_true]

open TUnit in
/-- Witness for C8: the reversed period 2022-08-01 to 2020-04-28 has no
strictly increasing shared pair, and occurrences_in_period raises the
malformed-period occurrence error. -/
theorem C8_malformed_only_when_no_increasing_pair_witness :
    (do
      let point ← mkTimePoint [⟨DY, 20⟩, ⟨HR, 22⟩]
      let pstart ← mkTimePoint [⟨YR, 2022⟩, ⟨MH, 8⟩, ⟨DY, 1⟩]
      let pend ← mkTimePoint [⟨YR, 2020⟩, ⟨MH, 4⟩, ⟨DY, 28⟩]
      occurrences_in_period point pstart pend) = Except.error Err.occMalformed := by
  exact C8_malformed_only_when_no_increasing_pair
    { time_elements := [⟨DY, 20⟩, ⟨HR, 22⟩], is_iso := false, is_leap := false,
      scope := some MH, over_units := [YR, MH], under_units := [ME, SD],
      point_type := PointType.START }
    { time_elements := [⟨YR, 2022⟩, ⟨MH, 8⟩, ⟨DY, 1⟩], is_iso := false, is_leap := true,
      scope := none, over_units := [], under_units := [HR, ME, SD],
      point_type := PointType.START }
    { time_elements := [⟨YR, 2020⟩, ⟨MH, 4⟩, ⟨DY, 28⟩], is_iso := false, is_leap := true,
      scope := none, over_units := [], under_units := [HR, ME, SD],
      point_type := PointType.START }
    rfl rfl rfl rfl rfl

/-- C9 (amended): for every input string, parsing a TimePoint from text
either consumes the whole string as recognized unit tokens (the matched
lengths sum to the string length and the unmatched list is empty), or
fails with the argument error naming the non-empty leftover unmatched
characters (matched plus unmatched accounting for every character), or
fails with the no-valid-elements argument error, or fails with the
creation error raised when a recognized token fails value validation; no
character is silently dropped and the out-of-fuel arm of the tokenizer
is never reached. -/
theorem C9_every_char_consumed_or_failure_reported (s : List Char) :
    (∃ els ms, parse_time_string_to_elements s = Except.ok (els, ms, ([] : List Char)) ∧
      (ms.map List.length).sum = s.length ∧
      timepoint_parse_from_string s = Except.ok els ∧ els ≠ []) ∨
    (∃ els ms um, parse_time_string_to_elements s = Except.ok (els, ms, um) ∧ um ≠ [] ∧
      (ms.map List.length).sum + um.length = s.length ∧
      timepoint_parse_from_string s = Except.error (Err.tpArgumentUnmatched um)) ∨
    timepoint_parse_from_string s = Except.error Err.tpArgumentNoElements ∨
    timepoint_parse_from_string s = Except.error (Err.tpCreation
      "Error in creating TimePoint instance: parse_time_string_to_elements: error validating value for unit") := by
  rcases tokenizeFuel_ok_or_invalid s.length s le_rfl with ⟨⟨els, ms, um⟩, hr⟩ | hr
  · have hp : parse_time_string_to_elements s = Except.ok (els, ms, um) := hr
    have hpart := tokenizeFuel_partition _ _ _ _ _ hr
    by_cases hels : els.isEmpty
    · right; right; left
      simp [timepoint_parse_from_string, hp, hels]
    · rw [Bool.not_eq_true] at hels
      by_cases hum : um.isEmpty
      · left
        have hume : um = [] := List.isEmpty_iff.mp hum
        subst hume
        refine ⟨els, ms, hp, by simpa using hpart, ?_, ?_⟩
        · simp [timepoint_parse_from_string, hp, hels]
        · intro hh
          rw [hh] at hels
          simp at hels
      · rw [Bool.not_eq_true] at hum
        right; left
        refine ⟨els, ms, um, hp, ?_, hpart, ?_⟩
        · intro hh
          rw [hh] at hum
          simp at hum
        · simp [timepoint_parse_from_string, hp, hels, hum]
  · right; right; right
    have hp : parse_time_string_to_elements s = Except.error (Err.valueError
        "parse_time_string_to_elements: error validating value for unit") := hr
    simp [timepoint_parse_from_string, hp]

/-- C9 counterexample: the four-character input 0001 parses as a year
token whose value 1 fails validation (the supported year range starts at
1800), so TimePoint construction from this text neither succeeds nor
fails with an argument error naming leftover characters: it fails with a
creation error. -/
theorem C9_counterexample :
    ¬ ((∃ els, timepoint_parse_from_string ['0', '0', '0', '1'] = Except.ok els) ∨
       (∃ um, timepoint_parse_from_string ['0', '0', '0', '1'] =
          Except.error (Err.tpArgumentUnmatched um))) := by
  have hv : timepoint_parse_from_string ['0', '0', '0', '1'] =
      Except.error (Err.tpCreation
        "Error in creating TimePoint instance: parse_time_string_to_elements: error validating value for unit") := rfl
  rintro (⟨els, he⟩ | ⟨um, he⟩) <;> rw [hv] at he <;> cases he

/-- C10: the two 53-week-year computations are equivalent over every
range: filtering years whose December 31 has ISO week 53 (the
utilityfuncs version) returns the same list as filtering years whose
December 28 has ISO week 53 (the configs version). -/
theorem C10_refinement (start_year end_year : Int) :
    find_year_with_53_weeks start_year end_year =
      years_with_53_weeks start_year end_year := by
  unfold find_year_with_53_weeks years_with_53_weeks
  apply List.filter_congr
  intro y _
  rw [Bool.eq_iff_iff]
  simp only [beq_iff_eq]
  exact dec31_iff_dec28 y
